import Mathlib

/-!
# Cognitive-Architect: shallow embedding and verification

This file embeds the core of the Cognitive-Architect MCP server
(`SequentialThinkingServer`, `KnowledgeGraph`, and the autonomous
orchestrator `orchestrateCognitiveProcess`) as executable Lean
definitions, and proves or refutes the specification claims about them.

Modelling conventions:
* JavaScript strings are Lean `String`s; only ASCII-relevant behaviour of
  `toLowerCase` is modelled (all keyword tables are ASCII).
* JavaScript numbers appearing as counters/indices are `Int`; fractional
  scores are `ℚ` (decimal literals such as `0.2` are exact rationals).
  `NaN`-producing computations (division by a zero sentence count) are
  modelled with `Option ℚ`, `none` standing for `NaN`.
* JavaScript exceptions are modelled with `Except`.  The orchestrator loop
  is parametrised by the stub executor so that the per-iteration
  `try/catch` can be verified against arbitrary (possibly throwing) stubs;
  the concrete stubs of the source never throw and are total functions.
* Mutable in-place updates (e.g. `edges.find(...)` followed by mutation)
  become functional updates of the first matching list element.
-/

namespace CognitiveArchitect

/-! ## String helpers mirroring the JavaScript primitives used by the source -/

/-- Characters matched by the JavaScript regex class `\s` (ASCII part;
the Unicode spaces never occur in the fixed tables of the source). -/
def jsWhitespace (c : Char) : Bool :=
  c == ' ' || c == '\t' || c == '\n' || c == '\r' || c == '\x0b' || c == '\x0c'

/-- Characters matched by the JavaScript regex class `\w` (`[A-Za-z0-9_]`). -/
def jsWordChar (c : Char) : Bool :=
  (c ≥ 'a' && c ≤ 'z') || (c ≥ 'A' && c ≤ 'Z') || (c ≥ '0' && c ≤ '9') || c == '_'

/-- `c` is an ASCII uppercase letter (`[A-Z]`). -/
def jsUpper (c : Char) : Bool := c ≥ 'A' && c ≤ 'Z'

/-- `c` is an ASCII lowercase letter (`[a-z]`). -/
def jsLower (c : Char) : Bool := c ≥ 'a' && c ≤ 'z'

/-- `c` is an ASCII letter (`[a-zA-Z]`). -/
def jsAlpha (c : Char) : Bool := jsUpper c || jsLower c

/-- `c` is an ASCII digit (`\d`). -/
def jsDigit (c : Char) : Bool := c ≥ '0' && c ≤ '9'

/-- `String.prototype.toLowerCase` (ASCII behaviour). -/
def jsToLower (s : String) : String := String.mk (s.data.map Char.toLower)

/-- `String.prototype.includes` (substring test). -/
def jsIncludes (s pattern : String) : Bool := decide (pattern.data <:+: s.data)

/-- `String.prototype.trim` (ASCII whitespace behaviour). -/
def jsTrim (s : String) : String :=
  String.mk (((s.data.dropWhile jsWhitespace).reverse.dropWhile jsWhitespace).reverse)

/-- Core of `split` by a regex matching maximal runs of characters
satisfying `p` (JavaScript `s.split(/X+/)`): boundary runs contribute
empty fragments, exactly as in JavaScript.  The `inSep` flag records that
the previous character belonged to a separator run already cut at. -/
def splitRunCore (p : Char → Bool) : Bool → List Char → List (List Char)
  | _, [] => [[]]
  | inSep, c :: cs =>
    if p c then
      if inSep then splitRunCore p true cs
      else [] :: splitRunCore p true cs
    else
      match splitRunCore p false cs with
      | [] => [[c]]
      | t :: ts => (c :: t) :: ts

/-- JavaScript `s.split(/X+/)` where the regex matches one-or-more
characters satisfying `p` (used for `\s+` and `[.!?]+`). -/
def jsSplitRun (p : Char → Bool) (s : String) : List String :=
  (splitRunCore p false s.data).map fun l => String.mk l

/-- Core of `split` by a literal non-empty separator string. -/
def splitOnLitCore (c0 : Char) (sep : List Char) : List Char → List (List Char)
  | [] => [[]]
  | c :: cs =>
    if (c0 :: sep).isPrefixOf (c :: cs) then
      [] :: splitOnLitCore c0 sep ((c :: cs).drop (sep.length + 1))
    else
      match splitOnLitCore c0 sep cs with
      | [] => [[c]]
      | t :: ts => (c :: t) :: ts
termination_by l => l.length
decreasing_by
  · simp only [List.length_cons, List.length_drop]
    omega
  · simp

/-- JavaScript `s.split(sep)` for a literal separator string. -/
def jsSplitLit (sep : String) (s : String) : List String :=
  match sep.data with
  | [] => [s]
  | c0 :: rest => (splitOnLitCore c0 rest s.data).map fun l => String.mk l

/-- `concept.toLowerCase().replace(/\s+/g, '_')`: the id normalisation used
by `KnowledgeGraph.addConcept` / `addRelationship`.  Replacing every
maximal whitespace run by `_` is exactly split-on-`\s+` rejoined with
`_`. -/
def normalizeConcept (concept : String) : String :=
  String.intercalate "_" (jsSplitRun jsWhitespace (jsToLower concept))

/-- Core of `[...new Set(l)]`: keep elements not seen before. -/
def setDedupGo (seen : List String) : List String → List String
  | [] => []
  | x :: xs => if seen.contains x then setDedupGo seen xs
               else x :: setDedupGo (x :: seen) xs

/-- `[...new Set(l)]`: deduplication keeping first occurrences. -/
def jsSetDedup (l : List String) : List String := setDedupGo [] l

/-- Functional model of "find the first matching element and mutate it in
place": every element before the first `p`-match is kept, the first match
is replaced by its `f`-image, the tail is kept. -/
def updateFirst {α : Type} (p : α → Bool) (f : α → α) : List α → List α
  | [] => []
  | x :: xs => if p x then f x :: xs else x :: updateFirst p f xs

/-! ## KnowledgeGraph (source: `class KnowledgeGraph`) -/

/-- `ConceptNode` of the source.  `type` is one of the four tag strings
(`'entity' | 'concept' | 'relationship' | 'hypothesis'`); `confidence` is a
JavaScript float, modelled exactly as `ℚ`; `firstMentioned` and thought
numbers are JavaScript numbers used as integers. -/
structure ConceptNode where
  id : String
  label : String
  type : String
  confidence : ℚ
  firstMentioned : Int
  frequency : Nat
  deriving DecidableEq, Repr

/-- `ConceptEdge` of the source. -/
structure ConceptEdge where
  source : String
  target : String
  relationship : String
  strength : Nat
  thoughtNumbers : List Int
  deriving DecidableEq, Repr

/-- The `KnowledgeGraph` state: `nodes` is a `Map` keyed by the normalised
id (insertion order preserved, keys unique), modelled as the list of its
values in insertion order; `edges` is a plain array. -/
structure KnowledgeGraph where
  nodes : List ConceptNode
  edges : List ConceptEdge
  deriving DecidableEq, Repr

namespace KnowledgeGraph

/-- The empty graph (`new KnowledgeGraph()`). -/
def empty : KnowledgeGraph := { nodes := [], edges := [] }

/-- `addConcept(concept, type, thoughtNumber)`: normalise the label to an
id; if a node with that id exists, increment its frequency in place;
otherwise append a fresh node with `confidence: 0.5`, `frequency: 1`. -/
def addConcept (g : KnowledgeGraph) (concept : String) (type : String)
    (thoughtNumber : Int) : KnowledgeGraph :=
  let id := normalizeConcept concept
  if g.nodes.any fun n => n.id == id then
    let nodes' := updateFirst (fun n => n.id == id)
      (fun n => { n with frequency := n.frequency + 1 }) g.nodes
    { g with nodes := nodes' }
  else
    let fresh : ConceptNode :=
      { id := id, label := concept, type := type, confidence := 0.5,
        firstMentioned := thoughtNumber, frequency := 1 }
    { g with nodes := g.nodes ++ [fresh] }

/-- The predicate of `edges.find(e => e.source === sourceId && e.target
=== targetId && e.relationship === relationship)`. -/
def edgeMatch (sourceId targetId relationship : String) (e : ConceptEdge) : Bool :=
  e.source == sourceId && e.target == targetId && e.relationship == relationship

/-- `addRelationship(source, target, relationship, thoughtNumber)`:
normalise both endpoints; if an edge with the identical
(source, target, relationship) triple exists, increment its strength and
append the thought number to its occurrence list; otherwise push a new
edge with `strength: 1`. -/
def addRelationship (g : KnowledgeGraph) (source target relationship : String)
    (thoughtNumber : Int) : KnowledgeGraph :=
  let sourceId := normalizeConcept source
  let targetId := normalizeConcept target
  if g.edges.any (edgeMatch sourceId targetId relationship) then
    let edges' := updateFirst (edgeMatch sourceId targetId relationship)
      (fun e => { e with
          strength := e.strength + 1,
          thoughtNumbers := e.thoughtNumbers ++ [thoughtNumber] }) g.edges
    { g with edges := edges' }
  else
    let fresh : ConceptEdge :=
      { source := sourceId, target := targetId, relationship := relationship,
        strength := 1, thoughtNumbers := [thoughtNumber] }
    { g with edges := g.edges ++ [fresh] }

/-- `exportGraph()`: the full node and edge collections (used by the
response only for the two counts). -/
def exportGraph (g : KnowledgeGraph) : List ConceptNode × List ConceptEdge :=
  (g.nodes, g.edges)

end KnowledgeGraph

/-! ## Regex `\b[A-Z]<tail>+\b` global matcher

`extractConcepts` uses `/\b[A-Z][a-zA-Z]+\b/g` and `_internal_deep_analysis`
uses `/\b[A-Z][a-z]+\b/g`.  A match starts at a word boundary (previous
character, if any, is not `\w`), consumes one uppercase letter and a
non-empty greedy run of `tail` characters, and must end at a word boundary
(next character, if any, is not `\w`).  Because every shortening of the
greedy run still ends in a letter, backtracking cannot rescue a failed
trailing boundary, so the scan below is exact. -/

/-- One left-to-right scan; `prev` records whether the previously consumed
character was a `\w` character (so that `\b` holds iff `prev` is false). -/
def capScan (tail : Char → Bool) : Bool → List Char → List (List Char)
  | _, [] => []
  | prev, c :: cs =>
    if !prev && jsUpper c then
      let run := cs.takeWhile tail
      let rest := cs.drop run.length
      if run ≠ [] && (rest.head?.all fun d => !jsWordChar d) then
        (c :: run) :: capScan tail true rest
      else
        capScan tail (jsWordChar c) cs
    else
      capScan tail (jsWordChar c) cs
termination_by _ l => l.length
decreasing_by
  · simp only [List.length_drop, List.length_cons]
    omega
  · simp
  · simp

/-- `thought.match(/\b[A-Z][a-zA-Z]+\b/g) || []`. -/
def capitalizedWords (s : String) : List String :=
  (capScan jsAlpha false s.data).map fun l => String.mk l

/-- `text.match(/\b[A-Z][a-z]+\b/g) || []` (used by `_internal_deep_analysis`). -/
def capitalizedLowerWords (s : String) : List String :=
  (capScan jsLower false s.data).map fun l => String.mk l

/-! ## SequentialThinkingServer: pure analysis functions -/

/-- `extractConcepts(thought)`: length>4 lowercase tokens minus a small
stopword list (first 5), plus lower-cased capitalized-word regex matches,
set-deduplicated in order. -/
def extractConcepts (thought : String) : List String :=
  let words := jsSplitRun jsWhitespace (jsToLower thought)
  let importantTerms := words.filter fun word =>
    word.length > 4 &&
      !(["however", "therefore", "because", "although", "furthermore"].contains word)
  let capitalizedTerms := capitalizedWords thought
  jsSetDedup (importantTerms.take 5 ++ capitalizedTerms.map jsToLower)

/-- The fixed domain → keyword tables of `analyzeContext`, in source
(insertion) order. -/
def domainsTable : List (String × List String) :=
  [("frontend", ["react", "vue", "angular", "javascript", "typescript", "html",
      "css", "dom", "component", "ui", "ux"]),
   ("backend", ["server", "api", "database", "node", "express", "django",
      "flask", "spring", "microservice", "rest", "graphql"]),
   ("mobile", ["ios", "android", "react-native", "flutter", "swift", "kotlin",
      "mobile", "app"]),
   ("devops", ["docker", "kubernetes", "aws", "azure", "gcp", "deployment",
      "infrastructure", "pipeline", "ci/cd"]),
   ("data-science", ["python", "pandas", "numpy", "tensorflow", "pytorch",
      "machine-learning", "ai", "data", "model"]),
   ("systems", ["performance", "scalability", "concurrency", "threading",
      "memory", "optimization", "distributed"]),
   ("security", ["authentication", "authorization", "encryption",
      "vulnerability", "security", "oauth", "jwt"]),
   ("technical", ["algorithm", "code", "function", "class", "method",
      "variable", "loop", "condition", "recursion"]),
   ("mathematical", ["equation", "formula", "calculate", "proof", "theorem",
      "complexity", "big-o"]),
   ("business", ["strategy", "market", "revenue", "customer", "profit",
      "requirements", "stakeholder"]),
   ("creative", ["design", "artistic", "creative", "aesthetic", "visual",
      "pattern", "architecture"])]

/-- The length>3 keyword tokens of a thought
(`thought.toLowerCase().split(/\s+/).filter(w => w.length > 3)`). -/
def keywordTokens (thought : String) : List String :=
  (jsSplitRun jsWhitespace (jsToLower thought)).filter fun word => word.length > 3

/-- How many of the thought keywords belong to one domain keyword list. -/
def domainMatchCount (keywords : List String) (domainKeywords : List String) : Nat :=
  (keywords.filter fun k => domainKeywords.contains k).length

/-- `assessComplexity(thought)`: count of the 5 discourse connectives
present as substrings of the lower-cased thought. -/
def assessComplexity (thought : String) : String :=
  let complexityIndicators := ["however", "although", "furthermore",
    "consequently", "nevertheless"]
  let matchCount := (complexityIndicators.filter fun indicator =>
    jsIncludes (jsToLower thought) indicator).length
  if matchCount ≥ 2 then "high"
  else if matchCount ≥ 1 then "medium"
  else "low"

/-- `ContextData` of the source (complexity kept as its label string). -/
structure ContextData where
  domain : String
  complexity : String
  keywords : List String
  relatedConcepts : List String
  confidence : ℚ
  deriving DecidableEq, Repr

/-- `analyzeContext(thought)`: keyword extraction, best-matching domain by
strict maximum, complexity tier and `confidence = min(maxMatches / 3, 1)`. -/
def analyzeContext (thought : String) : ContextData :=
  let keywords := keywordTokens thought
  let best := domainsTable.foldl
    (fun (acc : String × Nat) dom =>
      let matchCount := domainMatchCount keywords dom.2
      if matchCount > acc.2 then (dom.1, matchCount) else acc)
    ("general", 0)
  { domain := best.1,
    complexity := assessComplexity thought,
    keywords := keywords.take 10,
    relatedConcepts := extractConcepts thought,
    confidence := min ((best.2 : ℚ) / 3) 1 }

/-- The maximum domain-keyword match count over the whole table (the
specification's `maxMatches`). -/
def maxDomainMatches (thought : String) : Nat :=
  domainsTable.foldl (fun n dom => max n (domainMatchCount (keywordTokens thought) dom.2)) 0

/-! ## Quality scorer -/

/-- An untyped JavaScript value as it can arrive in a request object.
`undef` stands for both an absent property and `undefined`.  (Numbers are
modelled as integers: every number the claims exercise is integral.) -/
inductive JSValue where
  | str (s : String)
  | num (n : Int)
  | bool (b : Bool)
  | undef
  deriving DecidableEq, Repr

namespace JSValue

/-- JavaScript truthiness: `""`, `0`, `false` and `undefined` are falsy. -/
def truthy : JSValue → Bool
  | .str s => s ≠ ""
  | .num n => n ≠ 0
  | .bool b => b
  | .undef => false

/-- `typeof v === 'string'`. -/
def isStr : JSValue → Bool
  | .str _ => true
  | _ => false

/-- `typeof v === 'number'`. -/
def isNum : JSValue → Bool
  | .num _ => true
  | _ => false

/-- `typeof v === 'boolean'`. -/
def isBool : JSValue → Bool
  | .bool _ => true
  | _ => false

/-- Read a value already checked to be a string. -/
def asStr : JSValue → String
  | .str s => s
  | _ => ""

/-- Read a value already checked to be a number. -/
def asNum : JSValue → Int
  | .num n => n
  | _ => 0

/-- Read a value already checked to be a boolean. -/
def asBool : JSValue → Bool
  | .bool b => b
  | _ => false

/-- JavaScript string coercion `String(v)` (used when an unchecked value
is used as an object key, e.g. `branchId`). -/
def asKey : JSValue → String
  | .str s => s
  | .num n => toString n
  | .bool true => "true"
  | .bool false => "false"
  | .undef => "undefined"

end JSValue

/-- The raw request object of Operation A, before validation.  The
properties not listed in the source's destructuring never influence the
result. -/
structure RawInput where
  thought : JSValue := .undef
  thoughtNumber : JSValue := .undef
  totalThoughts : JSValue := .undef
  nextThoughtNeeded : JSValue := .undef
  isRevision : JSValue := .undef
  revisesThought : JSValue := .undef
  branchFromThought : JSValue := .undef
  branchId : JSValue := .undef
  needsMoreThoughts : JSValue := .undef
  deriving DecidableEq, Repr

/-- `ThoughtData` after validation.  The four required fields are typed;
the optional fields are cast with `as` in the source, i.e. passed through
unchecked, so they stay `JSValue`s here. -/
structure ThoughtData where
  thought : String
  thoughtNumber : Int
  totalThoughts : Int
  nextThoughtNeeded : Bool
  isRevision : JSValue := .undef
  revisesThought : JSValue := .undef
  branchFromThought : JSValue := .undef
  branchId : JSValue := .undef
  needsMoreThoughts : JSValue := .undef
  deriving DecidableEq, Repr

/-- `validateThoughtData(input)`: each required field is first tested for
truthiness (`!data.x ||`) and only then for its type, so a present but
falsy value (empty string, `0`) is rejected exactly like a missing one;
`nextThoughtNeeded` is only type-tested.  A failed check throws, modelled
as `Except.error` with the source's message. -/
def validateThoughtData (input : RawInput) : Except String ThoughtData :=
  if !input.thought.truthy || !input.thought.isStr then
    .error "Invalid thought: must be a string"
  else if !input.thoughtNumber.truthy || !input.thoughtNumber.isNum then
    .error "Invalid thoughtNumber: must be a number"
  else if !input.totalThoughts.truthy || !input.totalThoughts.isNum then
    .error "Invalid totalThoughts: must be a number"
  else if !input.nextThoughtNeeded.isBool then
    .error "Invalid nextThoughtNeeded: must be a boolean"
  else
    .ok { thought := input.thought.asStr,
          thoughtNumber := input.thoughtNumber.asNum,
          totalThoughts := input.totalThoughts.asNum,
          nextThoughtNeeded := input.nextThoughtNeeded.asBool,
          isRevision := input.isRevision,
          revisesThought := input.revisesThought,
          branchFromThought := input.branchFromThought,
          branchId := input.branchId,
          needsMoreThoughts := input.needsMoreThoughts }

/-- `findSharedTerms(t1, t2)`: length>3 tokens of `t1` (first-occurrence
deduplicated, as `Array.from(new Set(...))`) that also occur in `t2`. -/
def findSharedTerms (thought1 thought2 : String) : List String :=
  let words1 := jsSetDedup ((jsSplitRun jsWhitespace (jsToLower thought1)).filter
    fun w => w.length > 3)
  let words2 := (jsSplitRun jsWhitespace (jsToLower thought2)).filter
    fun w => w.length > 3
  words1.filter fun word => words2.contains word

/-- `this.thoughtHistory[i]?.thought || ''` for a JavaScript numeric index. -/
def historyThoughtAt (history : List ThoughtData) (i : Int) : String :=
  if i < 0 then "" else ((history.map ThoughtData.thought).getD i.toNat "")

/-- `measureCoherence(thought, thoughtNumber)`: 1.0 for the first thought;
otherwise shared-term and logical-connector heuristic, capped at 1.0.
`history` is the server's `thoughtHistory` (the current thought has already
been pushed when this runs). -/
def measureCoherence (history : List ThoughtData) (thought : String)
    (thoughtNumber : Int) : ℚ :=
  if thoughtNumber = 1 then 1.0
  else
    let previousThought := historyThoughtAt history (thoughtNumber - 2)
    let sharedTerms := findSharedTerms thought previousThought
    let logicalConnectors := (["therefore", "however", "furthermore",
      "consequently"].filter fun connector =>
        jsIncludes (jsToLower thought) connector).length
    min ((sharedTerms.length : ℚ) * 0.2 + (logicalConnectors : ℚ) * 0.3) 1.0

/-- `measureRelevance(thought)`: fraction of current tokens appearing in
the context keyword list, 0.2 per match, capped at 1.0.  `contextKeywords`
is `this.contextData.keywords` (already recomputed from the current
thought when this runs). -/
def measureRelevance (contextKeywords : List String) (thought : String) : ℚ :=
  let thoughtWords := jsSplitRun jsWhitespace (jsToLower thought)
  let relevantTerms := thoughtWords.filter fun word =>
    contextKeywords.contains word && word.length > 3
  min ((relevantTerms.length : ℚ) * 0.2) 1.0

/-- `measureNovelty(thought)`: length>3 tokens never seen in any thought of
`thoughtHistory` (which, in the caller, already contains the current
thought), 0.1 per new token, capped at 1.0. -/
def measureNovelty (history : List ThoughtData) (thought : String) : ℚ :=
  let thoughtWords := jsSetDedup ((jsSplitRun jsWhitespace (jsToLower thought)).filter
    fun w => w.length > 3)
  let historicalWords := history.flatMap fun t =>
    (jsSplitRun jsWhitespace (jsToLower t.thought)).filter fun w => w.length > 3
  let newWords := thoughtWords.filter fun word => !(historicalWords.contains word)
  min ((newWords.length : ℚ) * 0.1) 1.0

/-- `measureDepth(thought)`: 9 depth indicators, 0.25 each, capped at 1.0. -/
def measureDepth (thought : String) : ℚ :=
  let depthIndicators := ["because", "therefore", "implies", "suggests",
    "indicates", "underlying", "fundamental", "root cause", "deeper"]
  let matchCount := (depthIndicators.filter fun indicator =>
    jsIncludes (jsToLower thought) indicator).length
  min ((matchCount : ℚ) * 0.25) 1.0

/-- The sentence list of `measureClarity`:
`thought.split(/[.!?]+/).filter(s => s.trim().length > 0)`. -/
def claritySentences (thought : String) : List String :=
  (jsSplitRun (fun c => c == '.' || c == '!' || c == '?') thought).filter
    fun s => (jsTrim s).length > 0

/-- `measureClarity(thought)`.  When the sentence list is empty the
JavaScript source divides `0 / 0`, producing `NaN` which survives the
`Math.max(Math.min(...))` clamp; that undefined outcome is modelled as
`none`.  Otherwise the score is `1.0 - |avg - 17.5| * 0.02` clamped to
`[0.1, 1.0]`. -/
def measureClarity (thought : String) : Option ℚ :=
  let sentences := claritySentences thought
  if sentences.length = 0 then none
  else
    let avgSentenceLength : ℚ :=
      ((sentences.map fun s => (jsSplitRun jsWhitespace s).length).sum : ℚ) /
        (sentences.length : ℚ)
    let clarityScore := 1.0 - |avgSentenceLength - 17.5| * 0.02
    some (max (min clarityScore 1.0) 0.1)

/-- `ThoughtQuality` (clarity and the overall mean may be `NaN`). -/
structure ThoughtQuality where
  coherence : ℚ
  relevance : ℚ
  novelty : ℚ
  depth : ℚ
  clarity : Option ℚ
  overallScore : Option ℚ
  deriving DecidableEq, Repr

/-- `assessThoughtQuality(thought, thoughtNumber)`: the five measures plus
their arithmetic mean. -/
def assessThoughtQuality (history : List ThoughtData) (contextKeywords : List String)
    (thought : String) (thoughtNumber : Int) : ThoughtQuality :=
  let coherence := measureCoherence history thought thoughtNumber
  let relevance := measureRelevance contextKeywords thought
  let novelty := measureNovelty history thought
  let depth := measureDepth thought
  let clarity := measureClarity thought
  { coherence := coherence, relevance := relevance, novelty := novelty,
    depth := depth, clarity := clarity,
    overallScore := clarity.map fun c =>
      (coherence + relevance + novelty + depth + c) / 5 }

/-- `identifyRelationship(concept1, concept2, thought)`: fixed-phrase
detection over the lower-cased thought, defaulting to `related_to` (the
source never returns `null` in practice: the final statement returns the
default). -/
def identifyRelationship (concept1 concept2 thought : String) : String :=
  let text := jsToLower thought
  let c1 := jsToLower concept1
  let c2 := jsToLower concept2
  if jsIncludes text (c1 ++ " causes " ++ c2) then "causes"
  else if jsIncludes text (c1 ++ " leads to " ++ c2) then "leads_to"
  else if jsIncludes text (c1 ++ " is similar to " ++ c2) then "similar_to"
  else if jsIncludes text (c1 ++ " depends on " ++ c2) then "depends_on"
  else if jsIncludes text (c1 ++ " includes " ++ c2) then "includes"
  else "related_to"

/-- The inner `j` loop of `updateKnowledgeGraph`: add an edge from `c` to
every later concept. -/
def addEdgesFrom (thought : String) (thoughtNumber : Int) (c : String)
    (rest : List String) (g : KnowledgeGraph) : KnowledgeGraph :=
  rest.foldl (fun g' c' =>
    g'.addRelationship c c' (identifyRelationship c c' thought) thoughtNumber) g

/-- The ordered-pair double loop of `updateKnowledgeGraph`. -/
def addAllEdges (thought : String) (thoughtNumber : Int) :
    List String → KnowledgeGraph → KnowledgeGraph
  | [], g => g
  | c :: rest, g => addAllEdges thought thoughtNumber rest
      (addEdgesFrom thought thoughtNumber c rest g)

/-- `updateKnowledgeGraph(thought, thoughtNumber)`: add every extracted
concept as a node, then a directed edge for every ordered pair `i < j`. -/
def updateKnowledgeGraph (g : KnowledgeGraph) (thought : String)
    (thoughtNumber : Int) : KnowledgeGraph :=
  let concepts := extractConcepts thought
  let g₁ := concepts.foldl (fun g' concept =>
    g'.addConcept concept "concept" thoughtNumber) g
  addAllEdges thought thoughtNumber concepts g₁

/-! ## processThought (Operation A)

The embedding covers the validation, the clamp, the thought-history and
branch bookkeeping, the context update, the quality assessment, the
knowledge-graph update, and every echoed response field these feed.  The
presentation-only computations of the source (console formatting, the six
abstraction strings, the suggestion list, the code-analysis and
software-engineering blocks, the insight strings) write only caches that
no verified field or state reads, and are omitted. -/

/-- The per-session mutable state of `SequentialThinkingServer` (the
fields the verified behaviour uses). -/
structure ServerState where
  thoughtHistory : List ThoughtData
  branches : List (String × List ThoughtData)
  contextData : ContextData
  knowledgeGraph : KnowledgeGraph
  thoughtQualities : List (Int × ThoughtQuality)
  deriving DecidableEq, Repr

/-- The field initialisers of `SequentialThinkingServer`. -/
def ServerState.initial : ServerState :=
  { thoughtHistory := [],
    branches := [],
    contextData := { domain := "general", complexity := "medium",
                     keywords := [], relatedConcepts := [], confidence := 0.5 },
    knowledgeGraph := KnowledgeGraph.empty,
    thoughtQualities := [] }

/-- `if (!this.branches[branchId]) this.branches[branchId] = [];
this.branches[branchId].push(...)`. -/
def pushBranch (branches : List (String × List ThoughtData)) (key : String)
    (d : ThoughtData) : List (String × List ThoughtData) :=
  if branches.any fun p => p.1 == key then
    updateFirst (fun p => p.1 == key) (fun p => (p.1, p.2 ++ [d])) branches
  else
    branches ++ [(key, [d])]

/-- `this.thoughtQualities[n] = quality` on a string-keyed record. -/
def setQuality (qs : List (Int × ThoughtQuality)) (n : Int) (q : ThoughtQuality) :
    List (Int × ThoughtQuality) :=
  if qs.any fun p => p.1 == n then
    updateFirst (fun p => p.1 == n) (fun p => (p.1, q)) qs
  else
    qs ++ [(n, q)]

/-- The 8 domains treated as programming-related by `processThought`. -/
def programmingDomains : List String :=
  ["frontend", "backend", "mobile", "devops", "data-science", "systems",
   "security", "technical"]

/-- The `context` block of the Operation-A response. -/
structure ContextEcho where
  domain : String
  complexity : String
  confidence : ℚ
  keywords : List String
  isProgrammingRelated : Bool
  deriving DecidableEq, Repr

/-- The `quality` block of the Operation-A response.  Each field is read
back through `|| 0`, which maps the `NaN` clarity/overall of a
zero-sentence thought to `0`. -/
structure QualityEcho where
  overallScore : ℚ
  coherence : ℚ
  relevance : ℚ
  depth : ℚ
  clarity : ℚ
  novelty : ℚ
  deriving DecidableEq, Repr

/-- The verified fields of a successful Operation-A response. -/
structure SuccessResponse where
  thoughtNumber : Int
  totalThoughts : Int
  nextThoughtNeeded : Bool
  branches : List String
  thoughtHistoryLength : Nat
  context : ContextEcho
  quality : QualityEcho
  totalConcepts : Nat
  totalRelationships : Nat
  deriving DecidableEq, Repr

/-- The outcome of one `processThought` call: a successful analysis, or
the catch-block payload `{error, status: 'failed'}` with `isError: true`. -/
inductive ProcessOutcome where
  | success (response : SuccessResponse)
  | failure (error : String) (status : String)
  deriving DecidableEq, Repr

namespace ProcessOutcome

/-- The `isError` flag of the returned content (absent ≡ false on
success, `true` on the catch path). -/
def isError : ProcessOutcome → Bool
  | .success _ => false
  | .failure _ _ => true

/-- The `status` field of the response body, when present. -/
def status : ProcessOutcome → Option String
  | .success _ => none
  | .failure _ s => some s

/-- The echoed `thoughtNumber`, when the call succeeded. -/
def echoThoughtNumber : ProcessOutcome → Option Int
  | .success r => some r.thoughtNumber
  | .failure _ _ => none

/-- The echoed `totalThoughts`, when the call succeeded. -/
def echoTotalThoughts : ProcessOutcome → Option Int
  | .success r => some r.totalThoughts
  | .failure _ _ => none

/-- The echoed `context` block, when the call succeeded. -/
def contextEcho : ProcessOutcome → Option ContextEcho
  | .success r => some r.context
  | .failure _ _ => none

/-- The echoed `quality` block, when the call succeeded. -/
def qualityEcho : ProcessOutcome → Option QualityEcho
  | .success r => some r.quality
  | .failure _ _ => none

end ProcessOutcome

/-- `processThought(input)`: validation (throw → error response with the
state untouched), upward clamp of `totalThoughts`, history push, branch
bookkeeping, context re-analysis, quality scoring, knowledge-graph update,
and the response assembly. -/
def processThought (s : ServerState) (input : RawInput) :
    ProcessOutcome × ServerState :=
  match validateThoughtData input with
  | .error msg => (.failure msg "failed", s)
  | .ok v =>
    let d := if v.thoughtNumber > v.totalThoughts
             then { v with totalThoughts := v.thoughtNumber } else v
    let history := s.thoughtHistory ++ [d]
    let branches :=
      if d.branchFromThought.truthy && d.branchId.truthy then
        pushBranch s.branches d.branchId.asKey d
      else s.branches
    let ctx := analyzeContext d.thought
    let quality := assessThoughtQuality history ctx.keywords d.thought d.thoughtNumber
    let qualities := setQuality s.thoughtQualities d.thoughtNumber quality
    let graph := updateKnowledgeGraph s.knowledgeGraph d.thought d.thoughtNumber
    let isProgrammingRelated := programmingDomains.contains ctx.domain
    let response : SuccessResponse :=
      { thoughtNumber := d.thoughtNumber,
        totalThoughts := d.totalThoughts,
        nextThoughtNeeded := d.nextThoughtNeeded,
        branches := branches.map Prod.fst,
        thoughtHistoryLength := history.length,
        context := { domain := ctx.domain, complexity := ctx.complexity,
                     confidence := ctx.confidence,
                     keywords := ctx.keywords.take 5,
                     isProgrammingRelated := isProgrammingRelated },
        quality := { overallScore := quality.overallScore.getD 0,
                     coherence := quality.coherence,
                     relevance := quality.relevance,
                     depth := quality.depth,
                     clarity := quality.clarity.getD 0,
                     novelty := quality.novelty },
        totalConcepts := (graph.exportGraph).1.length,
        totalRelationships := (graph.exportGraph).2.length }
    (.success response,
     { thoughtHistory := history, branches := branches, contextData := ctx,
       knowledgeGraph := graph, thoughtQualities := qualities })

/-! ## Orchestrator (Operation B): problem typing and strategy selection -/

/-- One phase of a solution strategy. -/
structure Phase where
  type : String
  focus : String
  deriving DecidableEq, Repr

/-- `detectProblemType(problemStatement)`: first matching category wins,
in source order. -/
def detectProblemType (problemStatement : String) : String :=
  let text := jsToLower problemStatement
  if jsIncludes text "microservices" || jsIncludes text "architecture" ||
      jsIncludes text "scalable" || jsIncludes text "system design" then
    "system-architecture"
  else if jsIncludes text "algorithm" || jsIncludes text "data structure" ||
      jsIncludes text "complexity" then
    "algorithmic"
  else if jsIncludes text "business" || jsIncludes text "strategy" ||
      jsIncludes text "market" || jsIncludes text "roi" then
    "business-strategy"
  else if jsIncludes text "optimize" || jsIncludes text "performance" ||
      jsIncludes text "efficiency" then
    "optimization"
  else if jsIncludes text "design" || jsIncludes text "ui" ||
      jsIncludes text "ux" || jsIncludes text "interface" then
    "design"
  else if jsIncludes text "security" || jsIncludes text "authentication" ||
      jsIncludes text "authorization" then
    "security"
  else if jsIncludes text "data" || jsIncludes text "database" ||
      jsIncludes text "storage" then
    "data-management"
  else
    "general-problem"

/-- The default 5-phase strategy. -/
def baseStrategy : List Phase :=
  [⟨"decompose", "requirements-analysis"⟩,
   ⟨"research", "domain-knowledge"⟩,
   ⟨"design", "solution-architecture"⟩,
   ⟨"validate", "feasibility-assessment"⟩,
   ⟨"synthesize", "final-integration"⟩]

/-- The architecture-specific 8-phase strategy. -/
def architectureStrategy : List Phase :=
  [⟨"decompose", "system-requirements"⟩,
   ⟨"research", "architectural-patterns"⟩,
   ⟨"design", "component-design"⟩,
   ⟨"design", "database-design"⟩,
   ⟨"design", "integration-strategy"⟩,
   ⟨"design", "deployment-architecture"⟩,
   ⟨"validate", "scalability-analysis"⟩,
   ⟨"synthesize", "comprehensive-architecture"⟩]

/-- `createSolutionStrategy(problemType, focusAreas)` (`focusAreas` is
accepted but never read by the source). -/
def createSolutionStrategy (problemType : String) (focusAreas : List String) :
    List Phase :=
  if problemType = "system-architecture" then
    architectureStrategy
  else if problemType = "algorithmic" then
    [⟨"decompose", "problem-constraints"⟩,
     ⟨"research", "algorithmic-approaches"⟩,
     ⟨"design", "algorithm-design"⟩,
     ⟨"validate", "complexity-analysis"⟩,
     ⟨"synthesize", "optimized-solution"⟩]
  else if problemType = "business-strategy" then
    [⟨"decompose", "business-objectives"⟩,
     ⟨"research", "market-analysis"⟩,
     ⟨"design", "strategic-plan"⟩,
     ⟨"validate", "risk-assessment"⟩,
     ⟨"synthesize", "actionable-strategy"⟩]
  else
    baseStrategy

/-! ## Internal stub tools -/

/-- `lit` is a (case-insensitively lower-cased) prefix of `l`. -/
def ciPrefix (lit : String) (l : List Char) : Bool :=
  lit.data.isPrefixOf (l.map Char.toLower)

/-- Tail of the regex `/(\d+[^\s]*)\s+(?:concurrent\s+)?users/i` after the
captured token: one-or-more whitespace, an optional `concurrent` followed
by one-or-more whitespace, then `users` (case-insensitive). -/
def usersTailMatch (l : List Char) : Bool :=
  let ws := l.takeWhile jsWhitespace
  if ws.isEmpty then false
  else
    let r := l.drop ws.length
    (ciPrefix "users" r) ||
      (ciPrefix "concurrent" r &&
        let r₂ := (r.drop 10).dropWhile jsWhitespace
        !((r.drop 10).takeWhile jsWhitespace).isEmpty && ciPrefix "users" r₂)

/-- Left-to-right scan for `/(\d+[^\s]*)\s+(?:concurrent\s+)?users/i`.
Since `[^\s]*` can only satisfy the following `\s+` by stopping at the
next whitespace character, the captured group at a digit position is
always the maximal non-whitespace run starting there. -/
def usersScan : List Char → Option String
  | [] => none
  | c :: cs =>
    if jsDigit c then
      let tok := c :: cs.takeWhile fun d => !jsWhitespace d
      let rest := cs.drop (cs.takeWhile fun d => !jsWhitespace d).length
      if usersTailMatch rest then some (String.mk tok) else usersScan cs
    else usersScan cs

/-- Left-to-right scan for `/(\d+)\s*ms/`: a maximal digit run followed by
optional whitespace and the literal `ms`. -/
def msScan : List Char → Option String
  | [] => none
  | c :: cs =>
    if jsDigit c then
      let digits := c :: cs.takeWhile jsDigit
      let rest := cs.drop (cs.takeWhile jsDigit).length
      let rest₂ := rest.drop (rest.takeWhile jsWhitespace).length
      if "ms".data.isPrefixOf rest₂ then some (String.mk digits) else msScan cs
    else msScan cs

/-- The result record returned by every internal stub tool. -/
structure ToolResult where
  summary : String
  content : String
  confidence : ℚ
  deriving DecidableEq, Repr

/-- The keyword → requirement table of `_internal_problem_decomposition`. -/
def functionalKeywords : List (String × String) :=
  [("authentication", "User authentication and authorization"),
   ("authorization", "Role-based access control"),
   ("real-time", "Real-time collaborative editing"),
   ("offline", "Offline capability with sync"),
   ("collaboration", "Multi-user document collaboration"),
   ("consistency", "Data consistency across distributed nodes"),
   ("conflict resolution", "Operational transformation for conflicts")]

/-- `_internal_problem_decomposition(problem, focus)` (the `focus`
argument is accepted but unused by the source body). -/
def internalProblemDecomposition (problem : String) (focus : String) : ToolResult :=
  let scaleReqs :=
    if jsIncludes problem "users" || jsIncludes problem "concurrent" then
      match usersScan problem.data with
      | some m => ["Scale: " ++ m ++ " concurrent users"]
      | none => []
    else []
  let latencyReqs :=
    if jsIncludes problem "latency" || jsIncludes problem "ms" ||
        jsIncludes problem "response time" then
      match msScan problem.data with
      | some m => ["Response time: sub-" ++ m ++ "ms latency"]
      | none => []
    else []
  let functionalReqs := (functionalKeywords.filter fun kv =>
    jsIncludes (jsToLower problem) kv.1).map Prod.snd
  let techReqs :=
    (if jsIncludes problem "microservices" then
      ["Microservices architecture pattern"] else []) ++
    (if jsIncludes problem "collaborative document editing" then
      ["Collaborative document editing platform"] else [])
  let requirements := scaleReqs ++ latencyReqs ++ functionalReqs ++ techReqs
  let constraints : List String := []
  let objectives : List String := []
  let commonConstraints :=
    ["Budget: $500K-1M development cost",
     "Timeline: 6-12 months to MVP",
     "Team: 8-12 engineers maximum",
     "Technology: Cloud-native, container-based"]
  let systemObjectives :=
    ["High Availability: 99.9% uptime",
     "Scalability: Horizontal scaling capability",
     "Performance: Sub-100ms response times",
     "Security: Enterprise-grade security",
     "Reliability: Fault-tolerant design"]
  let finalRequirements :=
    if requirements.length > 0 then requirements
    else ["Basic collaborative editing system"]
  let finalConstraints :=
    if constraints.length > 0 then constraints else commonConstraints
  let finalObjectives :=
    if objectives.length > 0 then objectives else systemObjectives
  { summary := "Decomposed problem into " ++ toString finalRequirements.length ++
      " requirements, " ++ toString finalConstraints.length ++ " constraints, " ++
      toString finalObjectives.length ++ " objectives",
    content := "REQUIREMENTS: " ++ String.intercalate " | " finalRequirements ++
      ". CONSTRAINTS: " ++ String.intercalate " | " finalConstraints ++
      ". OBJECTIVES: " ++ String.intercalate " | " finalObjectives ++ ".",
    confidence := 0.8 }

/-- The `domainKnowledge` table of `_internal_domain_research`. -/
def domainKnowledgeTable : List (String × List String) :=
  [("system-requirements",
    ["Load balancing strategies (round-robin, least connections, consistent hashing)",
     "Database patterns (CQRS, Event Sourcing, Database per Service)",
     "Caching strategies (Redis, Memcached, CDN)",
     "Message queues (Kafka, RabbitMQ, AWS SQS)"]),
   ("architectural-patterns",
    ["Microservices architecture with API Gateway",
     "Event-driven architecture for real-time updates",
     "CQRS for read/write separation",
     "Saga pattern for distributed transactions"]),
   ("component-design",
    ["User Service (authentication, authorization)",
     "Document Service (CRUD operations, versioning)",
     "Collaboration Service (operational transformation)",
     "Notification Service (real-time updates)"]),
   ("integration-strategy",
    ["API Gateway for service orchestration",
     "Event bus for service communication",
     "Circuit breaker pattern for resilience",
     "Distributed tracing for observability"]),
   ("scalability-analysis",
    ["Horizontal scaling with container orchestration",
     "Database sharding and read replicas",
     "CDN for global content delivery",
     "Auto-scaling based on metrics"])]

/-- `_internal_domain_research(domain, context)` (the `context` argument
is accepted but unused by the source body). -/
def internalDomainResearch (domain : String) (context : String) : ToolResult :=
  let knowledge :=
    ((domainKnowledgeTable.find? fun kv => kv.1 == domain).map Prod.snd).getD
      ["Industry best practices and standards",
       "Common patterns and anti-patterns",
       "Performance optimization techniques",
       "Security considerations"]
  { summary := "Researched " ++ toString knowledge.length ++
      " relevant approaches for " ++ domain,
    content := "DOMAIN KNOWLEDGE: " ++ String.intercalate "; " knowledge,
    confidence := 0.9 }

/-- The `component-design` template of `_internal_solution_design`. -/
def componentDesignText : String :=
  "\nCORE MICROSERVICES ARCHITECTURE:\n\n1. USER SERVICE:\n   - JWT-based authentication with refresh tokens\n   - Role-based access control (Owner, Editor, Viewer)\n   - User profile management and preferences\n   - Technology: Node.js + Express + PostgreSQL\n\n2. DOCUMENT SERVICE:\n   - Document CRUD operations with versioning\n   - Git-like diff algorithm for change tracking\n   - Document metadata and permissions\n   - Technology: Node.js + FastAPI + PostgreSQL + MongoDB\n\n3. COLLABORATION SERVICE:\n   - Operational Transformation engine (ShareJS/OT.js)\n   - Real-time conflict resolution with vector clocks\n   - Collaborative cursor tracking\n   - Technology: Node.js + Socket.io + Redis\n\n4. NOTIFICATION SERVICE:\n   - WebSocket connection management (1M concurrent)\n   - Push notifications for offline users\n   - Real-time presence indicators\n   - Technology: Node.js + Socket.io + Redis Cluster"

/-- The `integration-strategy` template of `_internal_solution_design`. -/
def integrationStrategyText : String :=
  "\nSERVICE INTEGRATION ARCHITECTURE:\n\n1. API GATEWAY:\n   - Kong or AWS API Gateway for request routing\n   - Rate limiting: 1000 req/sec per user, burst to 2000\n   - Authentication middleware and request validation\n   - Load balancing with health checks\n\n2. EVENT-DRIVEN COMMUNICATION:\n   - Apache Kafka for service-to-service messaging\n   - Event sourcing for document change events\n   - Dead letter queues for failed message processing\n   - Schema registry for event versioning\n\n3. SYNCHRONOUS COMMUNICATION:\n   - REST APIs for user-facing operations\n   - gRPC for internal service communication\n   - Circuit breaker pattern (Netflix Hystrix)\n   - Request/response tracing with Jaeger\n\n4. DATA CONSISTENCY:\n   - Saga pattern for distributed transactions\n   - Eventually consistent read models\n   - CQRS with separate read/write databases\n   - Optimistic locking for conflict prevention"

/-- The `database-design` template of `_internal_solution_design`. -/
def databaseDesignText : String :=
  "\nPOLYGLOT DATABASE ARCHITECTURE:\n\n1. PRIMARY DATABASE (PostgreSQL):\n   - User profiles, permissions, document metadata\n   - ACID compliance for critical data\n   - Read replicas for query scaling (3 replicas)\n   - Connection pooling with PgBouncer\n\n2. DOCUMENT STORAGE (MongoDB):\n   - Document content with efficient diff storage\n   - GridFS for large file attachments\n   - Sharding by document_id for horizontal scaling\n   - Replica sets for high availability\n\n3. REAL-TIME STATE (Redis Cluster):\n   - Active collaboration sessions and locks\n   - User presence and cursor positions\n   - WebSocket connection mapping\n   - TTL-based session cleanup\n\n4. SEARCH INDEX (Elasticsearch):\n   - Full-text search across documents\n   - Auto-complete and suggestion features\n   - Analytics and reporting data\n   - Multi-node cluster with load balancing"

/-- The `deployment-architecture` template of `_internal_solution_design`. -/
def deploymentArchitectureText : String :=
  "\nKUBERNETES DEPLOYMENT STRATEGY:\n\n1. CLUSTER SETUP:\n   - Multi-region deployment (US-East, US-West, EU)\n   - 3 master nodes + auto-scaling worker nodes\n   - Network policies for service isolation\n   - Ingress controller (NGINX) with SSL termination\n\n2. SERVICE DEPLOYMENT:\n   - Deployment manifests with rolling updates\n   - ConfigMaps for environment configuration\n   - Secrets management for API keys/passwords\n   - Resource limits: CPU (100m-1000m), Memory (128Mi-1Gi)\n\n3. SCALING STRATEGY:\n   - Horizontal Pod Autoscaler (HPA) based on CPU/memory\n   - Vertical Pod Autoscaler (VPA) for optimal resource allocation\n   - Cluster Autoscaler for node management\n   - Custom metrics scaling (WebSocket connections)\n\n4. MONITORING & OBSERVABILITY:\n   - Prometheus for metrics collection\n   - Grafana for visualization and alerting\n   - Jaeger for distributed tracing\n   - ELK stack for centralized logging"

/-- The default template of `_internal_solution_design`. -/
def defaultDesignText : String :=
  "\nCOMPREHENSIVE MICROSERVICES ARCHITECTURE:\n\n1. API GATEWAY LAYER:\n   - Kong or AWS API Gateway for request routing\n   - Rate limiting and authentication\n   - Load balancing across service instances\n\n2. CORE SERVICES:\n   - User Service: JWT authentication, role-based access\n   - Document Service: Document CRUD, versioning with Git-like diff\n   - Collaboration Service: Operational Transformation engine\n   - Notification Service: WebSocket connections for real-time updates\n\n3. DATA LAYER:\n   - PostgreSQL cluster for document storage with read replicas\n   - Redis for session management and real-time collaboration state\n   - Elasticsearch for document search and indexing\n\n4. REAL-TIME COLLABORATION:\n   - Operational Transformation algorithm (ShareJS/OT.js)\n   - Conflict resolution with vector clocks\n   - WebSocket connections through Socket.io\n\n5. SCALABILITY FEATURES:\n   - Kubernetes for container orchestration\n   - Horizontal Pod Autoscaler based on CPU/memory\n   - Database connection pooling\n   - CDN for static assets (Cloudflare/AWS CloudFront)\n\n6. CONSISTENCY & RELIABILITY:\n   - Event sourcing for document changes\n   - Saga pattern for distributed transactions\n   - Circuit breaker pattern (Hystrix/resilience4j)\n   - Health checks and graceful degradation"

/-- `_internal_solution_design(requirements, focus)` (the joined
`requirementText` is computed but unused by the source body). -/
def internalSolutionDesign (requirements : List String) (focus : String) : ToolResult :=
  let requirementText := String.intercalate " " requirements
  let design :=
    if focus = "component-design" then componentDesignText
    else if focus = "integration-strategy" then integrationStrategyText
    else if focus = "database-design" then databaseDesignText
    else if focus = "deployment-architecture" then deploymentArchitectureText
    else defaultDesignText
  { summary := "Generated detailed solution design for " ++ focus,
    content := design,
    confidence := 0.85 }

/-- The check-mark marker prefix of the validation stub, byte-for-byte as
it appears in the shipped file. -/
def okMark : String := "âœ…"

/-- The warning marker prefix of the validation stub, byte-for-byte as it
appears in the shipped file. -/
def warnMark : String := "âš ï¸"

/-- `_internal_solution_validation(solution, originalProblem)`. -/
def internalSolutionValidation (solution : List String) (originalProblem : String) :
    ToolResult :=
  let solutionText := String.intercalate " " solution
  let scaleChecks :=
    if jsIncludes originalProblem "million" && jsIncludes solutionText "scaling" then
      [okMark ++ " SCALE: Solution addresses million-user requirement with horizontal scaling"]
    else if jsIncludes originalProblem "million" then
      [warnMark ++ " SCALE: Solution may need additional scaling considerations"]
    else []
  let latencyChecks :=
    if jsIncludes originalProblem "latency" && jsIncludes solutionText "Redis" then
      [okMark ++ " LATENCY: Caching strategy should meet sub-100ms requirements"]
    else if jsIncludes originalProblem "latency" then
      [warnMark ++ " LATENCY: Additional optimization may be needed for latency requirements"]
    else []
  let realtimeChecks :=
    if jsIncludes originalProblem "real-time" && jsIncludes solutionText "WebSocket" then
      [okMark ++ " REAL-TIME: WebSocket implementation supports real-time collaboration"]
    else []
  let consistencyChecks :=
    if jsIncludes originalProblem "consistency" && jsIncludes solutionText "Event sourcing" then
      [okMark ++ " CONSISTENCY: Event sourcing provides strong consistency guarantees"]
    else []
  let validationResults := scaleChecks ++ latencyChecks ++ realtimeChecks ++ consistencyChecks
  let risks :=
    ["Database bottlenecks under extreme load",
     "Network partitions affecting real-time sync",
     "Memory consumption with large documents",
     "Complex operational transformation conflicts"]
  { summary := "Validated solution against " ++ toString validationResults.length ++
      " requirements, identified " ++ toString risks.length ++ " potential risks",
    content := "VALIDATION: " ++ String.intercalate "; " validationResults ++
      ". RISKS: " ++ String.intercalate "; " risks,
    confidence := 0.75 }

/-- `_internal_solution_synthesis(components, problemType)` (the
`problemType` argument is unused by the source body). -/
def internalSolutionSynthesis (components : List String) (problemType : String) :
    ToolResult :=
  let synthesis :=
    "\nCOMPREHENSIVE SOLUTION SYNTHESIS:\n\n" ++
    String.intercalate "\n\n" components ++
    "\n\nIMPLEMENTATION ROADMAP:\n1. Phase 1: Core infrastructure setup (API Gateway, basic services)\n2. Phase 2: Real-time collaboration engine implementation\n3. Phase 3: Scaling and optimization\n4. Phase 4: Advanced features and monitoring\n\nTECHNOLOGY STACK RECOMMENDATION:\n- Backend: Node.js/TypeScript with Express or Fastify\n- Database: PostgreSQL with Redis for caching\n- Message Queue: Apache Kafka for event streaming\n- Container: Docker with Kubernetes orchestration\n- Monitoring: Prometheus + Grafana + Jaeger for tracing\n\nESTIMATED EFFORT: 6-9 months with a team of 8-10 engineers\nESTIMATED COST: $500K-$800K for initial development"
  { summary := "Synthesized comprehensive solution with " ++
      toString components.length ++ " integrated components",
    content := synthesis,
    confidence := 0.9 }

/-- `_internal_deep_analysis(text)`: capitalized-word entities and the
first concepts (both truncated to 3). -/
def internalDeepAnalysis (text : String) : List String × List String :=
  ((capitalizedLowerWords text).take 3, (extractConcepts text).take 3)

/-- The argument object passed to an internal tool.  Absent properties are
`none` (JavaScript `undefined`); a stub reading an absent property is
modelled by the empty default, which matches the explicit `|| ''` of the
deep-analysis fallback and is unreachable for the typed stubs. -/
structure ToolArgs where
  problem : Option String := none
  focus : Option String := none
  domain : Option String := none
  context : Option String := none
  requirements : Option (List String) := none
  solution : Option (List String) := none
  originalProblem : Option String := none
  components : Option (List String) := none
  problemType : Option String := none
  text : Option String := none
  deriving DecidableEq, Repr

/-- `executeInternalTool(toolName, args)`: string-keyed dispatch to the
five stubs, with a deep-analysis fallback for any other name. -/
def executeInternalTool (toolName : String) (args : ToolArgs) : ToolResult :=
  if toolName = "_internal_problem_decomposition" then
    internalProblemDecomposition (args.problem.getD "") (args.focus.getD "")
  else if toolName = "_internal_domain_research" then
    internalDomainResearch (args.domain.getD "") (args.context.getD "")
  else if toolName = "_internal_solution_design" then
    internalSolutionDesign (args.requirements.getD []) (args.focus.getD "")
  else if toolName = "_internal_solution_validation" then
    internalSolutionValidation (args.solution.getD []) (args.originalProblem.getD "")
  else if toolName = "_internal_solution_synthesis" then
    internalSolutionSynthesis (args.components.getD []) (args.problemType.getD "")
  else
    let result := internalDeepAnalysis (args.text.getD "")
    { summary := "Executed " ++ toolName ++ " with basic analysis",
      content := "Entities: " ++ String.intercalate ", " result.1 ++
        ", Concepts: " ++ String.intercalate ", " result.2,
      confidence := 0.5 }

/-- The stub executor that models the source exactly: the five concrete
stubs are total and never throw. -/
def realExec (toolName : String) (args : ToolArgs) : Except String ToolResult :=
  .ok (executeInternalTool toolName args)

/-! ## The orchestration loop -/

/-- One entry of the `cognitive_trace`: either an `Analyze/Plan` entry or
an `Act` entry. -/
inductive TraceEntry where
  | plan (step : Nat) (thought decision toolSuggestion : String)
  | act (step : Nat) (toolCalled : String) (toolArgs : ToolArgs)
      (toolResultSummary : String)
  deriving DecidableEq, Repr

/-- The mutable loop state of `orchestrateCognitiveProcess`. -/
structure OrchState where
  trace : List TraceEntry
  toolsUsed : List String
  components : List String
  confidence : ℚ
  deriving DecidableEq, Repr

/-- The loop state before the first iteration. -/
def OrchState.initial : OrchState :=
  { trace := [], toolsUsed := [], components := [], confidence := 0.0 }

/-- `solutionStrategy[Math.min(step - 1, solutionStrategy.length - 1)]`:
the phase executed at iteration `step` (every strategy of the source is
non-empty, so the dummy default is never produced). -/
def phaseAt (strategy : List Phase) (step : Nat) : Phase :=
  strategy.getD (min (step - 1) (strategy.length - 1)) ⟨"", ""⟩

/-- The planning half of one loop iteration: the `switch` on the current
phase type producing thought, decision, tool name and tool arguments. -/
structure PlanStep where
  thought : String
  decision : String
  tool : String
  args : ToolArgs
  deriving DecidableEq, Repr

/-- The `switch (currentPhase.type)` of the loop body. -/
def planOf (problemStatement problemType : String) (strategy : List Phase)
    (step : Nat) (s : OrchState) : PlanStep :=
  let currentPhase := phaseAt strategy step
  if currentPhase.type = "decompose" then
    { thought := "Breaking down the problem into manageable components: " ++
        problemStatement,
      decision := "Identify key sub-problems and requirements",
      tool := "_internal_problem_decomposition",
      args := { problem := some problemStatement, focus := some currentPhase.focus } }
  else if currentPhase.type = "research" then
    let initialRequirements := match s.components with
      | [] => "Problem: " ++ problemStatement
      | c :: _ => c
    { thought := "Researching relevant approaches and best practices for: " ++
        currentPhase.focus,
      decision := "Gather domain-specific knowledge and proven solutions",
      tool := "_internal_domain_research",
      args := { domain := some currentPhase.focus,
                context := some initialRequirements } }
  else if currentPhase.type = "design" then
    let basicRequirements := match s.components with
      | [] => "Problem: " ++ problemStatement
      | c :: _ => c
    { thought := "Designing solution architecture for: " ++ currentPhase.focus,
      decision := "Create detailed technical approach and implementation plan",
      tool := "_internal_solution_design",
      args := { requirements := some [basicRequirements],
                focus := some currentPhase.focus } }
  else if currentPhase.type = "validate" then
    { thought := "Validating solution against requirements and identifying potential issues",
      decision := "Assess feasibility, risks, and optimization opportunities",
      tool := "_internal_solution_validation",
      args := { solution := some s.components,
                originalProblem := some problemStatement } }
  else if currentPhase.type = "synthesize" then
    { thought := "Synthesizing comprehensive solution from all components",
      decision := "Integrate all elements into cohesive final solution",
      tool := "_internal_solution_synthesis",
      args := { components := some s.components, problemType := some problemType } }
  else
    { thought := "Continuing analysis on: " ++ currentPhase.focus,
      decision := "Perform additional analysis",
      tool := "_internal_deep_analysis",
      args := { text := some problemStatement } }

/-- One iteration of the loop for step number `step`: push the plan trace
entry; if a tool was selected (always true in the source), record it,
execute it inside the per-iteration `try`, and push the act trace entry.
A thrown stub (`Except.error`) is caught: its failure is recorded as the
act entry's summary and neither components nor confidence change. -/
def orchIter (exec : String → ToolArgs → Except String ToolResult)
    (problemStatement problemType : String) (strategy : List Phase)
    (maxSteps : Int) (step : Nat) (s : OrchState) : OrchState :=
  let p := planOf problemStatement problemType strategy step s
  let s₁ := { s with trace := s.trace ++ [.plan step p.thought p.decision p.tool] }
  if p.tool = "" then s₁
  else
    let s₂ := { s₁ with toolsUsed := s₁.toolsUsed ++ [p.tool] }
    match exec p.tool p.args with
    | .ok r =>
      let components' := if r.content = "" then s₂.components
                         else s₂.components ++ [r.content]
      let increment := if r.confidence = 0 then 1 / (maxSteps : ℚ) else r.confidence
      let confidence' := min (s₂.confidence + increment) 1.0
      let trace' := s₂.trace ++ [.act step p.tool p.args r.summary]
      { s₂ with components := components', confidence := confidence', trace := trace' }
    | .error msg =>
      let trace' := s₂.trace ++
        [.act step p.tool p.args ("Error executing " ++ p.tool ++ ": " ++ msg)]
      { s₂ with trace := trace' }

/-- The raw request object of Operation B. -/
structure CogInput where
  problem_statement : JSValue := .undef
  autonomous_mode : JSValue := .undef
  max_cognitive_steps : Option Int := none
  focus_areas : Option (List String) := none
  deriving DecidableEq, Repr

/-- `input.max_cognitive_steps || 5` (`0` is falsy). -/
def maxStepsOf (input : CogInput) : Int :=
  match input.max_cognitive_steps with
  | some n => if n = 0 then 5 else n
  | none => 5

/-- The loop state after `k` iterations (steps `1 .. k`), under stub
executor `exec`. -/
def orchRunWith (exec : String → ToolArgs → Except String ToolResult)
    (input : CogInput) (k : Nat) : OrchState :=
  let problemStatement := input.problem_statement.asStr
  let problemType := detectProblemType problemStatement
  let focusAreas := input.focus_areas.getD ["analysis"]
  let strategy := createSolutionStrategy problemType focusAreas
  (List.range k).foldl
    (fun s i => orchIter exec problemStatement problemType strategy
      (maxStepsOf input) (i + 1) s)
    OrchState.initial

/-- `generateFinalSolution(components, problemType, originalProblem)`:
splice marker-located components into the final report template. -/
def generateFinalSolution (components : List String)
    (problemType originalProblem : String) : String :=
  if components.length = 0 then
    "Unable to generate solution for: " ++ originalProblem
  else
    let requirements := (components.find? fun c => jsIncludes c "REQUIREMENTS:").getD ""
    let architecturalKnowledge :=
      (components.find? fun c => jsIncludes c "DOMAIN KNOWLEDGE:").getD ""
    let coreServices := (components.find? fun c => jsIncludes c "CORE MICROSERVICES").getD ""
    let integration := (components.find? fun c => jsIncludes c "SERVICE INTEGRATION").getD ""
    let database := (components.find? fun c => jsIncludes c "POLYGLOT DATABASE").getD ""
    let deployment := (components.find? fun c => jsIncludes c "KUBERNETES DEPLOYMENT").getD ""
    let validation := (components.find? fun c => jsIncludes c "VALIDATION:").getD ""
    "\n## COMPREHENSIVE SOLUTION: Real-Time Collaborative Document Editing Platform\n\n### PROBLEM ANALYSIS\n" ++
    originalProblem ++
    "\n\n**Problem Type:** " ++ problemType ++
    "\n\n### SYSTEM REQUIREMENTS\n" ++ requirements ++
    "\n\n### ARCHITECTURAL FOUNDATION\n" ++ architecturalKnowledge ++
    "\n\n### SOLUTION ARCHITECTURE\n\n" ++ coreServices ++
    "\n\n" ++ database ++
    "\n\n" ++ integration ++
    "\n\n" ++ deployment ++
    "\n\n### VALIDATION & RISK ASSESSMENT\n" ++ validation ++
    "\n\n### TECHNOLOGY STACK SUMMARY\n- **Backend Services:** Node.js + TypeScript + Express/Fastify\n- **Databases:** PostgreSQL (primary), MongoDB (documents), Redis (real-time), Elasticsearch (search)\n- **Message Queue:** Apache Kafka for event streaming\n- **Real-time Engine:** Socket.io + Operational Transformation (ShareJS)\n- **Container Platform:** Docker + Kubernetes\n- **API Gateway:** Kong or AWS API Gateway\n- **Monitoring:** Prometheus + Grafana + Jaeger + ELK Stack\n\n### IMPLEMENTATION ROADMAP\n1. **Phase 1 (Months 1-2):** Core infrastructure and basic services\n2. **Phase 2 (Months 3-4):** Real-time collaboration engine\n3. **Phase 3 (Months 5-6):** Scaling and performance optimization\n4. **Phase 4 (Months 7-8):** Advanced features and monitoring\n\n### ESTIMATED METRICS\n- **Development Time:** 8-10 months\n- **Team Size:** 10-12 engineers\n- **Infrastructure Cost:** $15K-25K/month\n- **Expected Performance:** <50ms latency for 1M concurrent users\n\nThis solution provides a production-ready, scalable architecture capable of handling enterprise-level collaborative document editing requirements."

/-- The result object of the autonomous orchestration (the elapsed-time
field, a wall-clock measurement, is outside the model). -/
structure CogResult where
  solution_summary : String
  cognitive_trace : List TraceEntry
  tools_used_internally : List String
  final_confidence_score : ℚ
  deriving DecidableEq, Repr

/-- `orchestrateCognitiveProcess(input)` under stub executor `exec`: run
`maxSteps` iterations of the loop and assemble the result. -/
def orchestrateCognitiveProcessWith
    (exec : String → ToolArgs → Except String ToolResult)
    (input : CogInput) : CogResult :=
  let problemStatement := input.problem_statement.asStr
  let problemType := detectProblemType problemStatement
  let final := orchRunWith exec input (maxStepsOf input).toNat
  { solution_summary :=
      generateFinalSolution final.components problemType problemStatement,
    cognitive_trace := final.trace,
    tools_used_internally := jsSetDedup final.toolsUsed,
    final_confidence_score := final.confidence }

/-- `orchestrateCognitiveProcess` with the source's concrete (total,
never-throwing) stubs. -/
def orchestrateCognitiveProcess (input : CogInput) : CogResult :=
  orchestrateCognitiveProcessWith realExec input

/-! ## processCognitiveThought (Operation B entry point) -/

/-- The inner sentence-accumulating loop of `_internal_summarize` (stops
at the first sentence that would exceed `maxLength` words). -/
def summarizeTake (maxLength : Int) : List String → Int → List String
  | [], _ => []
  | s :: rest, currentLength =>
    let words := (jsSplitLit " " s).length
    if currentLength + words ≤ maxLength then
      s :: summarizeTake maxLength rest (currentLength + words)
    else []

/-- `_internal_summarize(text, maxLength)`. -/
def internalSummarize (text : String) (maxLength : Int) : String :=
  let sentences := (jsSplitLit ". " text).filter fun s => (jsTrim s).length > 0
  let summarySentences := summarizeTake maxLength sentences 0
  String.intercalate ". " summarySentences ++
    (match summarySentences.getLast? with
     | some last => if last.endsWith "." then "" else "."
     | none => "")

/-- The outcome of one `processCognitiveThought` call. -/
inductive CogOutcome where
  | success (result : CogResult)
  | failure (error : String) (status : String)
  deriving DecidableEq, Repr

namespace CogOutcome

/-- The `isError` flag of the returned content. -/
def isError : CogOutcome → Bool
  | .success _ => false
  | .failure _ _ => true

/-- The `cognitive_trace` of the response, when the call succeeded. -/
def trace : CogOutcome → Option (List TraceEntry)
  | .success r => some r.cognitive_trace
  | .failure _ _ => none

/-- The `tools_used_internally` of the response, when the call succeeded. -/
def toolsUsed : CogOutcome → Option (List String)
  | .success r => some r.tools_used_internally
  | .failure _ _ => none

end CogOutcome

/-- `processCognitiveThought(input)`: validate `problem_statement`
(truthiness before type, as in Operation A); a truthy `autonomous_mode`
activates the orchestration loop, anything else — `false` but also an
*omitted* field — takes the lightweight fast-analysis path, whose sentiment
/ key-concept / tone values are computed but never included in the
response.  `rand` stands for the `Math.random()` placeholder confidence of
the fast path; `exec` is the stub executor (`realExec` in the source). -/
def processCognitiveThought (rand : ℚ)
    (exec : String → ToolArgs → Except String ToolResult)
    (input : CogInput) : CogOutcome :=
  if !input.problem_statement.truthy || !input.problem_statement.isStr then
    .failure "Invalid input: problem_statement must be a string" "failed"
  else if input.autonomous_mode.truthy then
    .success (orchestrateCognitiveProcessWith exec input)
  else
    let query := input.problem_statement.asStr
    let focusAreas := input.focus_areas.getD
      ["summary", "sentiment", "key_concepts", "tone"]
    let maxResponseLength : Int :=
      match input.max_cognitive_steps with
      | some n => if n = 0 then 100 else n * 20
      | none => 100
    let summary :=
      if focusAreas.contains "summary" then
        some (internalSummarize query maxResponseLength)
      else none
    .success
      { solution_summary :=
          match summary with
          | some s => if s = "" then "No summary generated." else s
          | none => "No summary generated.",
        cognitive_trace := [],
        tools_used_internally := [],
        final_confidence_score := rand }

/-! ## Shared helper lemmas -/

theorem updateFirst_append_of_none {α : Type} (p : α → Bool) (f : α → α)
    (l l' : List α) (h : ∀ x ∈ l, p x = false) :
    updateFirst p f (l ++ l') = l ++ updateFirst p f l' := by
  induction l with
  | nil => simp
  | cons x xs ih =>
    have hx := h x (by simp)
    simp only [List.cons_append, updateFirst, hx, Bool.false_eq_true, if_false,
      List.append_eq]
    rw [ih fun y hy => h y (by simp [hy])]

theorem filter_eq_nil_of_none {α : Type} (p : α → Bool) (l : List α)
    (h : ∀ x ∈ l, p x = false) : l.filter p = [] := by
  induction l with
  | nil => rfl
  | cons x xs ih =>
    simp only [List.filter_cons, h x (by simp), Bool.false_eq_true, if_false]
    exact ih fun y hy => h y (by simp [hy])

theorem any_eq_false_of_none {α : Type} (p : α → Bool) (l : List α)
    (h : ∀ x ∈ l, p x = false) : l.any p = false := by
  simp only [List.any_eq_false]
  intro x hx
  simp [h x hx]

theorem length_updateFirst {α : Type} (p : α → Bool) (f : α → α) (l : List α) :
    (updateFirst p f l).length = l.length := by
  induction l with
  | nil => rfl
  | cons x xs ih =>
    simp only [updateFirst]
    split <;> simp [ih]

theorem map_updateFirst_of_invariant {α β : Type} (p : α → Bool) (f : α → α)
    (g : α → β) (l : List α) (h : ∀ x, g (f x) = g x) :
    (updateFirst p f l).map g = l.map g := by
  induction l with
  | nil => rfl
  | cons x xs ih =>
    simp only [updateFirst]
    split <;> simp [ih, h]

theorem filter_updateFirst_of_filter_singleton {α : Type} (p : α → Bool)
    (f : α → α) (l : List α) (n : α) (h : l.filter p = [n]) (hf : p (f n) = true) :
    (updateFirst p f l).filter p = [f n] := by
  induction l with
  | nil => simp at h
  | cons x xs ih =>
    by_cases px : p x = true
    · rw [List.filter_cons_of_pos px] at h
      obtain ⟨rfl, hnil⟩ : x = n ∧ xs.filter p = [] :=
        ⟨(List.cons_eq_cons.mp h).1, (List.cons_eq_cons.mp h).2⟩
      simp [updateFirst, px, List.filter_cons_of_pos hf, hnil]
    · have px' : p x = false := by simpa using px
      rw [List.filter_cons_of_neg (by simp [px'])] at h
      simp only [updateFirst, px', Bool.false_eq_true, if_false]
      rw [List.filter_cons_of_neg (by simp [px'])]
      exact ih h

/-! ## Claim C1: edge accumulation in `addRelationship` -/

/-- **C1.** For every two calls to `KnowledgeGraph.addRelationship` whose
arguments normalise to the identical (source, target, relationship)
triple — starting from a graph with no edge between those normalised
endpoints — after the second call there is exactly one edge for that
triple, with strength 2 and a 2-element `thoughtNumbers` occurrence list;
a further call with the same (source, target) but a differing relationship
label creates a second, distinct edge. -/
theorem addRelationship_edge_accumulation
    (g : KnowledgeGraph) (src₁ tgt₁ src₂ tgt₂ rel rel' : String) (t₁ t₂ t₃ : Int)
    (hsrc : normalizeConcept src₂ = normalizeConcept src₁)
    (htgt : normalizeConcept tgt₂ = normalizeConcept tgt₁)
    (hrel : rel' ≠ rel)
    (habs : ∀ e ∈ g.edges, ¬(e.source = normalizeConcept src₁ ∧
      e.target = normalizeConcept tgt₁)) :
    ((g.addRelationship src₁ tgt₁ rel t₁).addRelationship src₂ tgt₂ rel t₂).edges.filter
        (KnowledgeGraph.edgeMatch (normalizeConcept src₁) (normalizeConcept tgt₁) rel) =
      [{ source := normalizeConcept src₁, target := normalizeConcept tgt₁,
         relationship := rel, strength := 2, thoughtNumbers := [t₁, t₂] }]
    ∧ (((g.addRelationship src₁ tgt₁ rel t₁).addRelationship src₂ tgt₂ rel
          t₂).addRelationship src₁ tgt₁ rel' t₃).edges.filter
        (fun e => e.source == normalizeConcept src₁ && e.target == normalizeConcept tgt₁) =
      [{ source := normalizeConcept src₁, target := normalizeConcept tgt₁,
         relationship := rel, strength := 2, thoughtNumbers := [t₁, t₂] },
       { source := normalizeConcept src₁, target := normalizeConcept tgt₁,
         relationship := rel', strength := 1, thoughtNumbers := [t₃] }] := by
  set s := normalizeConcept src₁ with hs
  set tg := normalizeConcept tgt₁ with htg
  -- every pre-existing edge fails every predicate keyed on (s, tg)
  have hedge_false : ∀ r, ∀ e ∈ g.edges, KnowledgeGraph.edgeMatch s tg r e = false := by
    intro r e he
    have hne := habs e he
    rw [Bool.eq_false_iff]
    intro hcon
    simp only [KnowledgeGraph.edgeMatch, Bool.and_eq_true, beq_iff_eq] at hcon
    exact hne ⟨hcon.1.1, hcon.1.2⟩
  have hedge_pair_false : ∀ e ∈ g.edges,
      (e.source == s && e.target == tg) = false := by
    intro e he
    have hne := habs e he
    rw [Bool.eq_false_iff]
    intro hcon
    simp only [Bool.and_eq_true, beq_iff_eq] at hcon
    exact hne hcon
  have hmatch : KnowledgeGraph.edgeMatch s tg rel
      { source := s, target := tg, relationship := rel, strength := 1,
        thoughtNumbers := [t₁] } = true := by
    simp [KnowledgeGraph.edgeMatch]
  have hmatch₂ : KnowledgeGraph.edgeMatch s tg rel
      { source := s, target := tg, relationship := rel, strength := 2,
        thoughtNumbers := [t₁, t₂] } = true := by
    simp [KnowledgeGraph.edgeMatch]
  have hmatch₂' : KnowledgeGraph.edgeMatch s tg rel'
      { source := s, target := tg, relationship := rel, strength := 2,
        thoughtNumbers := [t₁, t₂] } = false := by
    simp only [KnowledgeGraph.edgeMatch]
    simp only [beq_self_eq_true, Bool.true_and]
    rw [beq_eq_false_iff_ne]
    exact fun hcon => hrel hcon.symm
  -- the first call appends a fresh strength-1 edge
  have h1 : g.addRelationship src₁ tgt₁ rel t₁ =
      { g with edges := g.edges ++
          [{ source := s, target := tg, relationship := rel, strength := 1,
             thoughtNumbers := [t₁] }] } := by
    simp only [KnowledgeGraph.addRelationship, ← hs, ← htg]
    rw [if_neg]
    rw [any_eq_false_of_none _ _ (hedge_false rel)]
    simp
  -- the second call updates that edge in place
  have h2 : (g.addRelationship src₁ tgt₁ rel t₁).addRelationship src₂ tgt₂ rel t₂ =
      { g with edges := g.edges ++
          [{ source := s, target := tg, relationship := rel, strength := 2,
             thoughtNumbers := [t₁, t₂] }] } := by
    rw [h1]
    simp only [KnowledgeGraph.addRelationship, hsrc, htgt]
    rw [if_pos]
    · rw [updateFirst_append_of_none _ _ _ _ (hedge_false rel)]
      simp [updateFirst, hmatch]
    · simp [List.any_append, hmatch]
  constructor
  · rw [h2]
    simp only [List.filter_append]
    rw [filter_eq_nil_of_none _ _ (hedge_false rel)]
    rw [List.filter_cons_of_pos hmatch₂]
    simp
  · have h3 : ((g.addRelationship src₁ tgt₁ rel t₁).addRelationship src₂ tgt₂ rel
        t₂).addRelationship src₁ tgt₁ rel' t₃ =
        { g with edges := g.edges ++
            [{ source := s, target := tg, relationship := rel, strength := 2,
               thoughtNumbers := [t₁, t₂] },
             { source := s, target := tg, relationship := rel', strength := 1,
               thoughtNumbers := [t₃] }] } := by
      rw [h2]
      simp only [KnowledgeGraph.addRelationship, ← hs, ← htg]
      rw [if_neg]
      · simp
      · rw [List.any_append]
        rw [any_eq_false_of_none _ _ (hedge_false rel')]
        simp [hmatch₂']
    rw [h3]
    simp only [List.filter_append]
    rw [filter_eq_nil_of_none _ _ hedge_pair_false]
    simp [List.filter_cons]

/-- Witness for C1 at concrete inputs: `"react  STATE"` and `"React State"`
normalise to the same id, `"performance"` likewise, on the empty graph. -/
theorem addRelationship_edge_accumulation_witness :
    ((KnowledgeGraph.empty.addRelationship "React State" "Performance" "causes"
        1).addRelationship "react  STATE" "performance" "causes" 2).edges.filter
      (KnowledgeGraph.edgeMatch (normalizeConcept "React State")
        (normalizeConcept "Performance") "causes") =
    [{ source := normalizeConcept "React State",
       target := normalizeConcept "Performance",
       relationship := "causes", strength := 2, thoughtNumbers := [1, 2] }] :=
  (addRelationship_edge_accumulation KnowledgeGraph.empty "React State" "Performance"
    "react  STATE" "performance" "causes" "related_to" 1 2 3
    (by decide) (by decide) (by decide)
    (by intro e he; simp [KnowledgeGraph.empty] at he)).1

/-! ## Claim C2: `addConcept` is a pure upsert -/

/-- **C2.** `KnowledgeGraph.addConcept` is a pure upsert: when the
normalised id is absent, a node with `frequency = 1`, `confidence = 0.5`
and `firstMentioned` equal to the given thought index is created; when it
is present, exactly that node's frequency grows by exactly 1; in both
cases there is never a duplicate node (ids stay pairwise distinct) and no
error condition exists (the operation is a total function). -/
theorem addConcept_pure_upsert (g : KnowledgeGraph) (concept type : String)
    (t : Int) (hkeys : (g.nodes.map ConceptNode.id).Nodup) :
    ((g.nodes.filter (fun n => n.id == normalizeConcept concept) = [] →
        (g.addConcept concept type t).nodes.filter
            (fun n => n.id == normalizeConcept concept) =
          [{ id := normalizeConcept concept, label := concept, type := type,
             confidence := 0.5, firstMentioned := t, frequency := 1 }]
        ∧ (g.addConcept concept type t).nodes.length = g.nodes.length + 1))
    ∧ (∀ n : ConceptNode,
        g.nodes.filter (fun n' => n'.id == normalizeConcept concept) = [n] →
        (g.addConcept concept type t).nodes.filter
            (fun n' => n'.id == normalizeConcept concept) =
          [{ n with frequency := n.frequency + 1 }]
        ∧ (g.addConcept concept type t).nodes.length = g.nodes.length)
    ∧ ((g.addConcept concept type t).nodes.map ConceptNode.id).Nodup := by
  set cid := normalizeConcept concept with hcid
  by_cases hany : g.nodes.any (fun n => n.id == cid) = true
  · -- present: in-place frequency increment
    have hupd : (g.addConcept concept type t).nodes =
        updateFirst (fun n => n.id == cid)
          (fun n => { n with frequency := n.frequency + 1 }) g.nodes := by
      simp only [KnowledgeGraph.addConcept, ← hcid]
      rw [if_pos hany]
    have hfilter_ne : g.nodes.filter (fun n => n.id == cid) ≠ [] := by
      intro hnil
      rcases List.any_eq_true.mp hany with ⟨x, hx, hpx⟩
      have : x ∈ g.nodes.filter (fun n => n.id == cid) :=
        List.mem_filter.mpr ⟨hx, hpx⟩
      simp [hnil] at this
    refine ⟨fun hnil => absurd hnil hfilter_ne, fun n hn => ?_, ?_⟩
    · constructor
      · rw [hupd]
        exact filter_updateFirst_of_filter_singleton _ _ _ n hn
          (by
            have : n ∈ g.nodes.filter (fun n' => n'.id == cid) := by simp [hn]
            have := (List.mem_filter.mp this).2
            simpa using this)
      · rw [hupd]
        exact length_updateFirst _ _ _
    · rw [hupd]
      have : (updateFirst (fun n => n.id == cid)
          (fun n => { n with frequency := n.frequency + 1 }) g.nodes).map
            ConceptNode.id = g.nodes.map ConceptNode.id :=
        map_updateFirst_of_invariant _ _ _ _ (fun x => rfl)
      rw [this]
      exact hkeys
  · -- absent: append a fresh node
    have hany' : g.nodes.any (fun n => n.id == cid) = false := by
      simpa using hany
    have hnotmem : ∀ x ∈ g.nodes, (x.id == cid) = false := by
      intro x hx
      by_contra hcon
      exact hany (List.any_eq_true.mpr ⟨x, hx, by simpa using hcon⟩)
    have happ : (g.addConcept concept type t).nodes = g.nodes ++
        [{ id := cid, label := concept, type := type, confidence := 0.5,
           firstMentioned := t, frequency := 1 }] := by
      simp only [KnowledgeGraph.addConcept, ← hcid]
      rw [if_neg (by simp [hany'])]
    have hfilter_nil : g.nodes.filter (fun n => n.id == cid) = [] :=
      filter_eq_nil_of_none _ _ hnotmem
    refine ⟨fun _ => ?_, fun n hn => absurd hn (by simp [hfilter_nil]), ?_⟩
    · constructor
      · rw [happ]
        simp only [List.filter_append]
        rw [hfilter_nil]
        simp [List.filter_cons]
      · rw [happ]
        simp
    · rw [happ]
      simp only [List.map_append, List.map_cons, List.map_nil]
      rw [List.nodup_append]
      refine ⟨hkeys, by simp, ?_⟩
      intro a ha hb
      simp only [List.mem_singleton] at hb
      subst hb
      rcases List.mem_map.mp ha with ⟨x, hx, hxid⟩
      have := hnotmem x hx
      simp [hxid] at this

/-- Witness for C2: adding `"REACT"` to a graph already holding `"React"`
(same normalised id) increments the frequency of the single existing node
to 2 and neither duplicates it nor changes the node count. -/
theorem addConcept_pure_upsert_witness :
    ((KnowledgeGraph.empty.addConcept "React" "concept" 1).addConcept "REACT"
        "concept" 2).nodes.filter
      (fun n' => n'.id == normalizeConcept "REACT") =
      [{ id := "react", label := "React", type := "concept", confidence := 0.5,
         firstMentioned := 1, frequency := 2 }]
    ∧ ((KnowledgeGraph.empty.addConcept "React" "concept" 1).addConcept "REACT"
        "concept" 2).nodes.length =
      (KnowledgeGraph.empty.addConcept "React" "concept" 1).nodes.length := by
  have h := (addConcept_pure_upsert
    (KnowledgeGraph.empty.addConcept "React" "concept" 1) "REACT" "concept" 2
    (by decide)).2.1
    { id := "react", label := "React", type := "concept", confidence := 0.5,
      firstMentioned := 1, frequency := 1 }
    (by rfl)
  exact ⟨h.1, h.2⟩

/-! ## Claim C3: thought-number clamping and echo bounds -/

/-- **C3.** For every valid Operation-A input, when the input
`thoughtNumber` exceeds the input `totalThoughts` the two are clamped to
be equal in the echoed output (the source raises `totalThoughts` to
`thoughtNumber`, leaving `thoughtNumber` unchanged); the echoed
`thoughtNumber` is never less than the input one (it is equal), and the
echoed `totalThoughts` is at least the input `thoughtNumber` (and at least
the input `totalThoughts`). -/
theorem processThought_clamps_thought_numbers (s : ServerState) (input : RawInput)
    (d : ThoughtData) (hv : validateThoughtData input = .ok d) :
    (processThought s input).1.echoThoughtNumber = some d.thoughtNumber
    ∧ (processThought s input).1.echoTotalThoughts =
        some (max d.totalThoughts d.thoughtNumber)
    ∧ d.thoughtNumber ≤ max d.totalThoughts d.thoughtNumber
    ∧ d.totalThoughts ≤ max d.totalThoughts d.thoughtNumber
    ∧ (d.totalThoughts < d.thoughtNumber →
        (processThought s input).1.echoThoughtNumber =
          (processThought s input).1.echoTotalThoughts) := by
  have hboth : (processThought s input).1.echoThoughtNumber = some d.thoughtNumber
      ∧ (processThought s input).1.echoTotalThoughts =
        some (max d.totalThoughts d.thoughtNumber) := by
    simp only [processThought, hv]
    by_cases h : d.thoughtNumber > d.totalThoughts
    · simp only [if_pos h, ProcessOutcome.echoThoughtNumber,
        ProcessOutcome.echoTotalThoughts]
      have : max d.totalThoughts d.thoughtNumber = d.thoughtNumber := by omega
      simp [this]
    · simp only [if_neg h, ProcessOutcome.echoThoughtNumber,
        ProcessOutcome.echoTotalThoughts]
      have : max d.totalThoughts d.thoughtNumber = d.totalThoughts := by omega
      simp [this]
  refine ⟨hboth.1, hboth.2, le_max_right _ _, le_max_left _ _, fun hlt => ?_⟩
  rw [hboth.1, hboth.2]
  have : max d.totalThoughts d.thoughtNumber = d.thoughtNumber := by omega
  rw [this]

/-- Witness for C3: input `thoughtNumber = 5`, `totalThoughts = 3` — the
echo is `(5, 5)`. -/
theorem processThought_clamps_thought_numbers_witness :
    (processThought ServerState.initial
        { thought := .str "Testing word", thoughtNumber := .num 5,
          totalThoughts := .num 3,
          nextThoughtNeeded := .bool true }).1.echoThoughtNumber = some 5
    ∧ (processThought ServerState.initial
        { thought := .str "Testing word", thoughtNumber := .num 5,
          totalThoughts := .num 3,
          nextThoughtNeeded := .bool true }).1.echoTotalThoughts = some 5 := by
  have h := processThought_clamps_thought_numbers ServerState.initial
    { thought := .str "Testing word", thoughtNumber := .num 5,
      totalThoughts := .num 3, nextThoughtNeeded := .bool true }
    { thought := "Testing word", thoughtNumber := 5, totalThoughts := 3,
      nextThoughtNeeded := true }
    (by rfl)
  exact ⟨h.1, by simpa using h.2.1⟩

/-! ## Claim C10: falsy-but-correctly-typed required fields are rejected -/

/-- A falsy `thought`, `thoughtNumber` or `totalThoughts` always makes
`validateThoughtData` throw, because each truthiness test precedes the
type test. -/
theorem validateThoughtData_not_ok_of_falsy (input : RawInput)
    (h : input.thought = .str "" ∨ input.thoughtNumber = .num 0 ∨
      input.totalThoughts = .num 0) :
    ∀ d, validateThoughtData input ≠ .ok d := by
  intro d hok
  unfold validateThoughtData at hok
  rcases h with h | h | h <;> rw [h] at hok <;>
    simp only [JSValue.truthy, JSValue.isStr, JSValue.isNum] at hok <;>
    split at hok <;> simp_all <;> split at hok <;> simp_all

/-- **C10.** Operation A rejects inputs whose required fields are present
and correctly typed but falsy: `thought = ""`, `thoughtNumber = 0` or
`totalThoughts = 0` each produce the validation-error response
(`status: "failed"`, `isError: true`) instead of a successful analysis,
because the required fields are tested for truthiness before their type. -/
theorem falsy_required_fields_rejected (s : ServerState) (input : RawInput)
    (h : input.thought = .str "" ∨ input.thoughtNumber = .num 0 ∨
      input.totalThoughts = .num 0) :
    (processThought s input).1.isError = true
    ∧ (processThought s input).1.status = some "failed" := by
  cases hval : validateThoughtData input with
  | error msg =>
    simp [processThought, hval, ProcessOutcome.isError, ProcessOutcome.status]
  | ok d =>
    exact absurd hval (validateThoughtData_not_ok_of_falsy input h d)

/-- Witness for C10: `thoughtNumber = 0` with all other fields valid is
rejected with `isError = true` and `status = "failed"`. -/
theorem falsy_required_fields_rejected_witness :
    (processThought ServerState.initial
        { thought := .str "A valid thought", thoughtNumber := .num 0,
          totalThoughts := .num 3,
          nextThoughtNeeded := .bool true }).1.isError = true
    ∧ (processThought ServerState.initial
        { thought := .str "A valid thought", thoughtNumber := .num 0,
          totalThoughts := .num 3,
          nextThoughtNeeded := .bool true }).1.status = some "failed" :=
  falsy_required_fields_rejected ServerState.initial
    { thought := .str "A valid thought", thoughtNumber := .num 0,
      totalThoughts := .num 3, nextThoughtNeeded := .bool true }
    (Or.inr (Or.inl rfl))

/-! ## Claim C4: the clarity division is NOT guarded (code bug)

The claim asserts the division by the sentence count inside
`measureClarity` is guarded so that zero sentences cannot produce an
out-of-range or undefined score.  The source has no such guard: for the
valid non-empty thought `"."` the sentence list is empty, the source
computes `0 / 0 = NaN`, the `Math.max(Math.min(..))` clamp propagates the
`NaN`, and the response echoes it as `0` through `|| 0` — outside the
claimed `[0.1, 1]` clarity range. -/

/-- **C4 (code bug).** At the failing input `"."` (a truthy string that
passes validation): the sentence list is empty, `measureClarity` is
undefined (`NaN`, modelled `none`), `assessThoughtQuality` propagates the
undefined clarity and overall score, and the full Operation-A response
echoes `clarity = 0`, below the claimed lower bound `0.1`. -/
theorem measureClarity_unguarded_zero_sentences :
    claritySentences "." = []
    ∧ measureClarity "." = none
    ∧ (assessThoughtQuality
        [{ thought := ".", thoughtNumber := 1, totalThoughts := 1,
           nextThoughtNeeded := true }] [] "." 1).clarity = none
    ∧ (assessThoughtQuality
        [{ thought := ".", thoughtNumber := 1, totalThoughts := 1,
           nextThoughtNeeded := true }] [] "." 1).overallScore = none
    ∧ ((processThought ServerState.initial
        { thought := .str ".", thoughtNumber := .num 1, totalThoughts := .num 1,
          nextThoughtNeeded := .bool false }).1.qualityEcho.map
            QualityEcho.clarity) = some 0 := by
  refine ⟨by decide, by decide, by decide, by decide, by decide⟩

/-! ## Claim C9: domain detection is deterministic with
`confidence = min(maxMatches / 3, 1)` -/

/-- The strict-maximum fold of `analyzeContext` tracks exactly the running
maximum of the per-domain match counts. -/
theorem bestFold_snd_eq_max (kw : List String) (l : List (String × List String)) :
    ∀ (a : String) (m : Nat),
    (l.foldl (fun (acc : String × Nat) dom =>
        let matchCount := domainMatchCount kw dom.2
        if matchCount > acc.2 then (dom.1, matchCount) else acc) (a, m)).2 =
      l.foldl (fun n dom => max n (domainMatchCount kw dom.2)) m := by
  induction l with
  | nil => intro a m; rfl
  | cons d ds ih =>
    intro a m
    simp only [List.foldl_cons]
    by_cases h : domainMatchCount kw d.2 > m
    · rw [if_pos h, ih]
      congr 1
      omega
    · rw [if_neg h, ih]
      congr 1
      omega

/-- **C9.** Domain detection is deterministic: the context block of the
Operation-A response is a function of the thought text alone — two
invocations on the identical input from any two (e.g. reset) server
states produce the identical domain label and confidence — and the
confidence equals `min(maxMatches / 3, 1)` over the domain keyword
tables. -/
theorem domain_detection_deterministic :
    (∀ thought : String,
      (analyzeContext thought).confidence = min ((maxDomainMatches thought : ℚ) / 3) 1)
    ∧ (∀ (s₁ s₂ : ServerState) (input : RawInput),
      (processThought s₁ input).1.contextEcho = (processThought s₂ input).1.contextEcho) := by
  constructor
  · intro thought
    simp only [analyzeContext, maxDomainMatches]
    rw [bestFold_snd_eq_max]
  · intro s₁ s₂ input
    cases hval : validateThoughtData input with
    | error msg => simp [processThought, hval, ProcessOutcome.contextEcho]
    | ok d => simp [processThought, hval, ProcessOutcome.contextEcho]

/-! ## Orchestrator helper lemmas -/

/-- Every concrete stub returns a strictly positive confidence
(0.8 / 0.9 / 0.85 / 0.75 / 0.9, and 0.5 for the fallback). -/
theorem executeInternalTool_confidence_pos (toolName : String) (args : ToolArgs) :
    0 < (executeInternalTool toolName args).confidence := by
  unfold executeInternalTool
  split_ifs <;>
    simp only [internalProblemDecomposition, internalDomainResearch,
      internalSolutionDesign, internalSolutionValidation,
      internalSolutionSynthesis] <;>
    norm_num

/-- Every branch of the phase `switch` selects a (non-empty) tool name. -/
theorem planOf_tool_ne_empty (ps pt : String) (strategy : List Phase)
    (step : Nat) (s : OrchState) : ¬(planOf ps pt strategy step s).tool = "" := by
  simp only [planOf]
  split_ifs <;> simp

/-- Every iteration of the loop — under any stub executor, including a
throwing one — appends exactly the plan entry and the act entry. -/
theorem orchIter_trace_length (exec : String → ToolArgs → Except String ToolResult)
    (ps pt : String) (strategy : List Phase) (ms : Int) (step : Nat)
    (s : OrchState) :
    (orchIter exec ps pt strategy ms step s).trace.length = s.trace.length + 2 := by
  simp only [orchIter]
  rw [if_neg (planOf_tool_ne_empty ps pt strategy step s)]
  split <;> simp

/-- Unfolding one more loop iteration. -/
theorem orchRunWith_succ (exec : String → ToolArgs → Except String ToolResult)
    (input : CogInput) (k : Nat) :
    orchRunWith exec input (k + 1) =
      orchIter exec input.problem_statement.asStr
        (detectProblemType input.problem_statement.asStr)
        (createSolutionStrategy (detectProblemType input.problem_statement.asStr)
          (input.focus_areas.getD ["analysis"]))
        (maxStepsOf input) (k + 1) (orchRunWith exec input k) := by
  simp [orchRunWith, List.range_succ]

/-- The trace after `k` iterations has exactly `2 * k` entries, for any
stub executor. -/
theorem orchRunWith_trace_length
    (exec : String → ToolArgs → Except String ToolResult) (input : CogInput)
    (k : Nat) : (orchRunWith exec input k).trace.length = 2 * k := by
  induction k with
  | zero => simp [orchRunWith, OrchState.initial]
  | succ n ih =>
    rw [orchRunWith_succ, orchIter_trace_length, ih]
    omega

/-- One real-stub iteration keeps the confidence inside `[0, 1]` and never
decreases it. -/
theorem orchIter_confidence_bounds (ps pt : String) (strategy : List Phase)
    (ms : Int) (step : Nat) (s : OrchState)
    (h0 : 0 ≤ s.confidence) (h1 : s.confidence ≤ 1) :
    s.confidence ≤ (orchIter realExec ps pt strategy ms step s).confidence
    ∧ 0 ≤ (orchIter realExec ps pt strategy ms step s).confidence
    ∧ (orchIter realExec ps pt strategy ms step s).confidence ≤ 1 := by
  simp only [orchIter, realExec]
  by_cases htool : (planOf ps pt strategy step s).tool = ""
  · rw [if_pos htool]
    exact ⟨le_refl _, h0, h1⟩
  · rw [if_neg htool]
    have hpos := executeInternalTool_confidence_pos
      (planOf ps pt strategy step s).tool (planOf ps pt strategy step s).args
    simp only []
    rw [if_neg hpos.ne']
    have hone : (1.0 : ℚ) = 1 := by norm_num
    rw [hone]
    refine ⟨le_min (by linarith) h1, le_min (by linarith) (by norm_num),
      min_le_right _ _⟩

/-! ## Claim C5: orchestrator confidence is monotone and bounded by 1 -/

/-- **C5.** Within one `orchestrateCognitiveProcess` call — for every
problem statement and every `max_cognitive_steps` value — the accumulated
confidence after `k` loop iterations never decreases from step to step,
stays in `[0, 1]`, and the final reported confidence never exceeds 1. -/
theorem orchestrator_confidence_monotone_bounded (input : CogInput) (k : Nat) :
    (orchRunWith realExec input k).confidence ≤
      (orchRunWith realExec input (k + 1)).confidence
    ∧ 0 ≤ (orchRunWith realExec input k).confidence
    ∧ (orchRunWith realExec input k).confidence ≤ 1
    ∧ (orchestrateCognitiveProcess input).final_confidence_score ≤ 1 := by
  have hinv : ∀ j : Nat, 0 ≤ (orchRunWith realExec input j).confidence ∧
      (orchRunWith realExec input j).confidence ≤ 1 := by
    intro j
    induction j with
    | zero =>
      constructor <;> simp [orchRunWith, OrchState.initial] <;> norm_num
    | succ n ih =>
      rw [orchRunWith_succ]
      exact ⟨(orchIter_confidence_bounds _ _ _ _ _ _ ih.1 ih.2).2.1,
        (orchIter_confidence_bounds _ _ _ _ _ _ ih.1 ih.2).2.2⟩
  refine ⟨?_, (hinv k).1, (hinv k).2, ?_⟩
  · rw [orchRunWith_succ]
    exact (orchIter_confidence_bounds _ _ _ _ _ _ (hinv k).1 (hinv k).2).1
  · simp only [orchestrateCognitiveProcess, orchestrateCognitiveProcessWith]
    exact (hinv _).2

/-! ## Claim C6: loop count, phase indexing, architecture strategy -/

/-- An infix survives mapping. -/
theorem isInfix_map {α β : Type} (f : α → β) {l₁ l₂ : List α}
    (h : l₁ <:+: l₂) : l₁.map f <:+: l₂.map f := by
  obtain ⟨u, v, rfl⟩ := h
  exact ⟨u.map f, v.map f, by simp⟩

/-- A lower-case pattern contained in `ps` is found by `includes` on the
lower-cased text. -/
theorem jsIncludes_toLower_of_infix (ps pattern : String)
    (hpat : pattern.data.map Char.toLower = pattern.data)
    (h : pattern.data <:+: ps.data) :
    jsIncludes (jsToLower ps) pattern = true := by
  simp only [jsIncludes, jsToLower]
  exact decide_eq_true (hpat ▸ isInfix_map Char.toLower h)

/-- **C6.** A problem statement containing `"microservices architecture"`
is classified `system-architecture` and selects the 8-phase architecture
strategy; the loop runs exactly `maxSteps` iterations (the trace has
`2 * maxSteps` entries, independent of the strategy length); the phase of
iteration `step` is `sequence[min(step-1, len-1)]`, so once the sequence
is exhausted the last phase repeats. -/
theorem microservices_selects_architecture_strategy (input : CogInput)
    (ps : String) (hps : input.problem_statement = .str ps)
    (hsub : "microservices architecture".data <:+: ps.data) :
    detectProblemType ps = "system-architecture"
    ∧ createSolutionStrategy (detectProblemType ps)
        (input.focus_areas.getD ["analysis"]) = architectureStrategy
    ∧ architectureStrategy.length = 8
    ∧ (orchestrateCognitiveProcess input).cognitive_trace.length =
        2 * (maxStepsOf input).toNat
    ∧ (∀ (strategy : List Phase) (h : strategy ≠ []) (step : Nat),
        strategy.length ≤ step → phaseAt strategy step = strategy.getLast h)
    ∧ (∀ step : Nat, 8 ≤ step →
        phaseAt architectureStrategy step =
          ⟨"synthesize", "comprehensive-architecture"⟩) := by
  have hmicro : "microservices".data <:+: ps.data :=
    List.IsInfix.trans (by decide) hsub
  have hinc : jsIncludes (jsToLower ps) "microservices" = true :=
    jsIncludes_toLower_of_infix ps "microservices" (by decide) hmicro
  have hdetect : detectProblemType ps = "system-architecture" := by
    simp only [detectProblemType]
    rw [hinc]
    simp
  refine ⟨hdetect, ?_, by decide, ?_, ?_, ?_⟩
  · rw [hdetect]
    simp [createSolutionStrategy]
  · simp only [orchestrateCognitiveProcess, orchestrateCognitiveProcessWith]
    exact orchRunWith_trace_length realExec input _
  · intro strategy h step hle
    have hlen : 1 ≤ strategy.length := List.length_pos.mpr h
    have hmin : min (step - 1) (strategy.length - 1) = strategy.length - 1 := by
      omega
    rw [phaseAt, hmin]
    rw [List.getD_eq_getElem _ _ (by omega)]
    rw [List.getLast_eq_getElem]
  · intro step hstep
    have h7 : min (step - 1) 7 = 7 := by omega
    simp [phaseAt, architectureStrategy, h7]

/-- Witness for C6: the concrete Operation-B input
`"Design a scalable microservices architecture"` with default
`max_cognitive_steps` selects the architecture strategy and produces a
10-entry trace (2 entries per each of the 5 loop iterations). -/
theorem microservices_selects_architecture_strategy_witness :
    detectProblemType "Design a scalable microservices architecture" =
      "system-architecture"
    ∧ (orchestrateCognitiveProcess
        { problem_statement := .str "Design a scalable microservices architecture",
          autonomous_mode := .bool true }).cognitive_trace.length = 10 := by
  have h := microservices_selects_architecture_strategy
    { problem_statement := .str "Design a scalable microservices architecture",
      autonomous_mode := .bool true }
    "Design a scalable microservices architecture" rfl (by decide)
  exact ⟨h.1, by simpa using h.2.2.2.1⟩

/-! ## Claim C8: stub exceptions are caught per-iteration -/

/-- **C8.** For every exception raised by an internal orchestration stub
during one iteration (any executor returning `Except.error`): the
exception is caught inside that iteration and recorded as the act-entry
summary describing the failure, while components and confidence are left
untouched; the loop still performs every one of its iterations (the trace
has `2 * k` entries for any executor); and the whole request returns a
non-error response. -/
theorem stub_errors_caught_per_iteration :
    (∀ (exec : String → ToolArgs → Except String ToolResult)
        (ps pt : String) (strategy : List Phase) (ms : Int) (step : Nat)
        (s : OrchState) (msg : String),
      exec (planOf ps pt strategy step s).tool (planOf ps pt strategy step s).args =
          .error msg →
      orchIter exec ps pt strategy ms step s =
        { trace := s.trace ++
            [.plan step (planOf ps pt strategy step s).thought
               (planOf ps pt strategy step s).decision
               (planOf ps pt strategy step s).tool,
             .act step (planOf ps pt strategy step s).tool
               (planOf ps pt strategy step s).args
               ("Error executing " ++ (planOf ps pt strategy step s).tool ++
                 ": " ++ msg)],
          toolsUsed := s.toolsUsed ++ [(planOf ps pt strategy step s).tool],
          components := s.components,
          confidence := s.confidence })
    ∧ (∀ (exec : String → ToolArgs → Except String ToolResult)
        (input : CogInput) (k : Nat),
        (orchRunWith exec input k).trace.length = 2 * k)
    ∧ (∀ (exec : String → ToolArgs → Except String ToolResult) (rand : ℚ)
        (input : CogInput),
        input.problem_statement.truthy = true →
        input.problem_statement.isStr = true →
        (processCognitiveThought rand exec input).isError = false) := by
  refine ⟨?_, fun exec input k => orchRunWith_trace_length exec input k, ?_⟩
  · intro exec ps pt strategy ms step s msg hexec
    simp only [orchIter]
    rw [if_neg (planOf_tool_ne_empty ps pt strategy step s)]
    rw [hexec]
    simp [List.append_assoc]
  · intro exec rand input h1 h2
    simp only [processCognitiveThought, h1, h2]
    simp only [Bool.not_true, Bool.or_self, Bool.false_eq_true, if_false]
    split <;> simp [CogOutcome.isError]

/-- Witness for C8: a stub executor that always throws, at step 1 from the
initial loop state — the failure is recorded in the act entry, components
and confidence stay untouched, and a whole autonomous request under this
executor still returns a non-error response. -/
theorem stub_errors_caught_per_iteration_witness :
    orchIter (fun _ _ => .error "boom") "p" "general-problem" baseStrategy 5 1
        OrchState.initial =
      { trace :=
          [.plan 1 (planOf "p" "general-problem" baseStrategy 1
              OrchState.initial).thought
             (planOf "p" "general-problem" baseStrategy 1 OrchState.initial).decision
             (planOf "p" "general-problem" baseStrategy 1 OrchState.initial).tool,
           .act 1 (planOf "p" "general-problem" baseStrategy 1 OrchState.initial).tool
             (planOf "p" "general-problem" baseStrategy 1 OrchState.initial).args
             ("Error executing " ++
               (planOf "p" "general-problem" baseStrategy 1 OrchState.initial).tool ++
               ": " ++ "boom")],
        toolsUsed :=
          [(planOf "p" "general-problem" baseStrategy 1 OrchState.initial).tool],
        components := [],
        confidence := 0.0 }
    ∧ (processCognitiveThought 0 (fun _ _ => .error "boom")
        { problem_statement := .str "p",
          autonomous_mode := .bool true }).isError = false := by
  constructor
  · have h := stub_errors_caught_per_iteration.1 (fun _ _ => .error "boom")
      "p" "general-problem" baseStrategy 5 1 OrchState.initial "boom" rfl
    simpa [OrchState.initial] using h
  · exact stub_errors_caught_per_iteration.2.2 (fun _ _ => .error "boom") 0
      { problem_statement := .str "p", autonomous_mode := .bool true }
      (by decide) (by decide)

/-! ## Claim C7: the effective default of `autonomous_mode` (code bug)

The tool schema declares `autonomous_mode: {default: true}` and the claim
says an Operation-B call that omits `autonomous_mode` runs the autonomous
phase loop.  The handler, however, receives the raw arguments and tests
`if (validatedInput.autonomous_mode)` — `undefined` is falsy, so an
omitted field takes the lightweight fast-analysis path, not the loop. -/

/-- **C7 (code bug).** At the failing input (only `problem_statement`
supplied, `autonomous_mode` omitted) the response is the fast-path one:
empty `cognitive_trace` and empty `tools_used_internally` — the
orchestration loop did not run.  The same input with an explicit
`autonomous_mode: true` produces the 10-entry loop trace, showing the
omitted field is not treated as the documented default `true`. -/
theorem autonomous_mode_omitted_takes_fast_path :
    (processCognitiveThought 0 realExec
        { problem_statement :=
            .str "Design a scalable microservices architecture" }).trace = some []
    ∧ (processCognitiveThought 0 realExec
        { problem_statement :=
            .str "Design a scalable microservices architecture" }).toolsUsed = some []
    ∧ ((processCognitiveThought 0 realExec
        { problem_statement := .str "Design a scalable microservices architecture",
          autonomous_mode := .bool true }).trace.map List.length) = some 10 := by
  refine ⟨rfl, rfl, ?_⟩
  have hsucc : processCognitiveThought 0 realExec
      { problem_statement := .str "Design a scalable microservices architecture",
        autonomous_mode := .bool true } =
      .success (orchestrateCognitiveProcessWith realExec
        { problem_statement := .str "Design a scalable microservices architecture",
          autonomous_mode := .bool true }) := rfl
  rw [hsucc]
  simp [CogOutcome.trace, orchestrateCognitiveProcessWith,
    orchRunWith_trace_length, maxStepsOf]

end CognitiveArchitect
